import Mathlib

/-!
Shallow embedding of the sub-agent core of the Lemlist-MCP repository
(`src/sub-agents/routing/TaskComplexityAnalyzer.js`, `src/sub-agents/quality/QualityAssurance.js`,
`src/sub-agents/SubAgentOrchestrator.js` (orchestrator + `ErrorRecoverySystem`),
`TaskRouter.js`, `ContextManager.js`), together with proofs of the spec claims.

Modelling conventions:
* JavaScript numbers are modelled as `ℚ` (all arithmetic in these modules is exact
  decimal/rational; no float rounding is ever observable at the granularity of the claims);
  integer-valued scores are `ℕ` where the source only ever adds naturals.
* `undefined` optional fields are `Option _`; optional chaining `a?.b` is `Option.map`/matching,
  and comparisons against `undefined` are `false` exactly as in JS.
* JS string truthiness (`if (s)`) is `some s` with `s` nonempty; array truthiness is `isSome`
  (a JS array is truthy even when empty).
* `Date.now()` is an explicit `ℚ` parameter; ISO-string timestamps compare exactly like the
  underlying milliseconds, so they are kept as `ℚ`.
-/

namespace LemlistMCP

/-- The consultation tiers. `EXTERNAL` only ever appears as an escalation target
(`ErrorRecoverySystem.autoEscalateTier`); `TaskComplexityAnalyzer` produces the first four. -/
inductive Tier where
  | DIRECT
  | TIER_1
  | TIER_2
  | TIER_3
  | EXTERNAL
deriving DecidableEq, Repr

/-- Embeds `task.performance` sub-object: only `requirements` is ever read. -/
structure PerformanceSpec where
  requirements : Option (List String) := none
deriving DecidableEq, Repr

/-- Embeds `task.timeline` sub-object: only `pressure` is ever read. -/
structure TimelineSpec where
  pressure : Option String := none
deriving DecidableEq, Repr

/-- The task object, with every field that the sub-agent modules read.
`complexity` is modelled as a plain number (the claims under verification all
concern tasks carrying a numeric complexity). -/
structure Task where
  description : Option String := none
  domain : Option String := none
  scope : Option String := none
  files : Option (List String) := none
  integrations : Option (List String) := none
  databases : Option (List String) := none
  apis : Option (List String) := none
  services : Option (List String) := none
  crossTeam : Bool := false
  governance : Bool := false
  technologies : Option (List String) := none
  patterns : Option (List String) := none
  performance : Option PerformanceSpec := none
  scalability : Option (List String) := none
  compliance : Option (List String) := none
  businessLogic : Option (List String) := none
  dataRisk : Option (List String) := none
  systemRisk : Option (List String) := none
  implementationRisk : Option (List String) := none
  timeline : Option TimelineSpec := none
  requirements : Option (List String) := none
  complexity : ℚ := 0
  complexityScore : Option ℚ := none
deriving DecidableEq, Repr

/-- JS `xs?.length > n` (false when `xs` is `undefined`). -/
def optLenGt (xs : Option (List String)) (n : ℕ) : Bool :=
  match xs with
  | some l => decide (l.length > n)
  | none => false

/-- JS `xs?.length === n` (false when `xs` is `undefined`). -/
def optLenEq (xs : Option (List String)) (n : ℕ) : Bool :=
  match xs with
  | some l => decide (l.length = n)
  | none => false

/-- JS `xs?.includes(x)` (false when `xs` is `undefined`). -/
def optIncludes (xs : Option (List String)) (x : String) : Bool :=
  match xs with
  | some l => l.contains x
  | none => false

/-- JS `xs?.some(p)` (false when `xs` is `undefined`). -/
def optAny (xs : Option (List String)) (p : String → Bool) : Bool :=
  match xs with
  | some l => l.any p
  | none => false

/-- JS string truthiness of an optional string: defined and nonempty. -/
def jsTruthyStr (s : Option String) : Bool :=
  match s with
  | some str => !str.isEmpty
  | none => false

namespace TaskComplexityAnalyzer

/-- The four sub-scores (`breakdown` in the source). -/
structure Complexity where
  scope : ℕ
  technical : ℕ
  domain : ℕ
  risk : ℕ
deriving DecidableEq, Repr

/-- Result of `calculateOverallComplexity`. -/
structure ComplexityAnalysis where
  overallScore : ℚ
  tier : Tier
  breakdown : Complexity
  confidence : ℚ
  recommendations : List String
deriving DecidableEq, Repr

/-- Embeds `analyzeScopeComplexity(task)` (TaskComplexityAnalyzer.js lines 18-43): an if/else-if
chain establishing a base score, additive extras, clamped by `Math.min(score, 10)`. -/
def analyzeScopeComplexity (task : Task) : ℕ :=
  let base : ℕ :=
    if task.scope == some ("single-function") || optLenEq task.files 1 then 1
    else if optLenGt task.files 1 && !optLenGt task.files 5 then 3
    else if optLenGt task.files 5 || task.scope == some ("system-wide") then 5
    else if task.scope == some ("cross-system") || optLenGt task.integrations 0 then 8
    else if task.scope == some ("enterprise") || task.governance then 10
    else 1
  let score := base
    + (if optLenGt task.databases 1 then 2 else 0)
    + (if optLenGt task.apis 3 then 2 else 0)
    + (if optLenGt task.services 2 then 3 else 0)
    + (if task.crossTeam then 2 else 0)
  min score 10

/-- The `complexTechnologies` table of `analyzeTechnicalComplexity`. -/
def complexTechnologies : List String :=
  [("microservices"), ("distributed-systems"), ("blockchain"),
   ("machine-learning"), ("real-time-processing"), ("streaming")]

/-- The `complexPatterns` table of `analyzeTechnicalComplexity`. -/
def complexPatterns : List String :=
  [("event-sourcing"), ("cqrs"), ("saga"), ("circuit-breaker"),
   ("distributed-transactions"), ("consensus-algorithms")]

/-- JS `task.performance?.requirements?.includes(x)`. -/
def perfReqIncludes (task : Task) (x : String) : Bool :=
  match task.performance with
  | some p => optIncludes p.requirements x
  | none => false

/-- Embeds `analyzeTechnicalComplexity(task)` (lines 45-74). -/
def analyzeTechnicalComplexity (task : Task) : ℕ :=
  let score : ℕ := 1
    + (if optAny task.technologies (fun tech => complexTechnologies.contains tech) then 3 else 0)
    + (if optAny task.patterns (fun pat => complexPatterns.contains pat) then 4 else 0)
    + (match task.integrations with
       | some l => if l.length > 0 then min (l.length * 2) 6 else 0
       | none => 0)
    + (if perfReqIncludes task ("sub-second") then 3 else 0)
    + (if perfReqIncludes task ("high-throughput") then 2 else 0)
    + (if perfReqIncludes task ("real-time") then 4 else 0)
    + (if optIncludes task.scalability ("horizontal") then 2 else 0)
    + (if optIncludes task.scalability ("auto-scaling") then 3 else 0)
    + (if optIncludes task.scalability ("global-distribution") then 4 else 0)
  min score 10

/-- The `complexDomains` difficulty table of `analyzeDomainComplexity`. -/
def complexDomains (d : String) : Option ℕ :=
  if d == ("financial") then some 4
  else if d == ("healthcare") then some 5
  else if d == ("security") then some 4
  else if d == ("ml-ai") then some 5
  else if d == ("blockchain") then some 6
  else if d == ("embedded") then some 4
  else if d == ("real-time") then some 4
  else if d == ("distributed-systems") then some 5
  else if d == ("data-science") then some 4
  else none

/-- The `complianceComplexity` weight table of `analyzeDomainComplexity`. -/
def complianceComplexity (c : String) : Option ℕ :=
  if c == ("gdpr") then some 3
  else if c == ("hipaa") then some 4
  else if c == ("pci-dss") then some 4
  else if c == ("sox") then some 3
  else if c == ("iso-27001") then some 3
  else if c == ("fda") then some 5
  else none

/-- Embeds `analyzeDomainComplexity(task)` (lines 76-121). The `task.compliance.forEach` loop adds
the table weight of every recognized compliance tag. -/
def analyzeDomainComplexity (task : Task) : ℕ :=
  let score : ℕ := 1
    + (match task.domain with
       | some d => (complexDomains d).getD 0
       | none => 0)
    + (match task.compliance with
       | some cs => cs.foldl (fun acc c => acc + (complianceComplexity c).getD 0) 0
       | none => 0)
    + (if optIncludes task.businessLogic ("complex-calculations") then 2 else 0)
    + (if optIncludes task.businessLogic ("multi-step-workflows") then 3 else 0)
    + (if optIncludes task.businessLogic ("state-machines") then 3 else 0)
    + (if optIncludes task.businessLogic ("rule-engines") then 4 else 0)
  min score 10

/-- JS `task.timeline?.pressure === x`. -/
def timelinePressureIs (task : Task) (x : String) : Bool :=
  match task.timeline with
  | some t => t.pressure == some x
  | none => false

/-- Embeds `analyzeRiskLevel(task)` (lines 123-149). -/
def analyzeRiskLevel (task : Task) : ℕ :=
  let score : ℕ := 1
    + (if optIncludes task.dataRisk ("pii") then 3 else 0)
    + (if optIncludes task.dataRisk ("financial") then 4 else 0)
    + (if optIncludes task.dataRisk ("medical") then 4 else 0)
    + (if optIncludes task.dataRisk ("sensitive") then 2 else 0)
    + (if optIncludes task.systemRisk ("production-critical") then 4 else 0)
    + (if optIncludes task.systemRisk ("revenue-impacting") then 3 else 0)
    + (if optIncludes task.systemRisk ("user-facing") then 2 else 0)
    + (if optIncludes task.systemRisk ("data-loss-potential") then 5 else 0)
    + (if optIncludes task.implementationRisk ("breaking-changes") then 3 else 0)
    + (if optIncludes task.implementationRisk ("migration-required") then 4 else 0)
    + (if optIncludes task.implementationRisk ("rollback-difficult") then 3 else 0)
    + (if optIncludes task.implementationRisk ("external-dependencies") then 2 else 0)
    + (if timelinePressureIs task ("urgent") then 2 else 0)
    + (if timelinePressureIs task ("critical") then 4 else 0)
  min score 10

/-- Embeds `calculateConfidence(complexity)` (lines 174-179): 0.25 per sub-score above 1, capped at 1. -/
def calculateConfidence (c : Complexity) : ℚ :=
  let indicators : ℕ :=
    [c.scope, c.technical, c.domain, c.risk].countP (fun s => decide (s > 1))
  min ((indicators : ℚ) * 0.25) 1.0

/-- Embeds `generateRecommendations(complexity, tier)` (lines 181-205). -/
def generateRecommendations (c : Complexity) (tier : Tier) : List String :=
  (if c.scope > 7 then [("Consider breaking down into smaller tasks")] else [])
  ++ (if c.technical > 8 then [("Require multiple technical specialists")] else [])
  ++ (if c.domain > 6 then [("Domain expert consultation required")] else [])
  ++ (if c.risk > 7 then [("Implement comprehensive risk mitigation")] else [])
  ++ (if tier = Tier.TIER_3 then [("Cross-domain architectural review needed")] else [])

/-- Embeds `calculateOverallComplexity(complexity)` (lines 151-172): the weighted overall score and
the fixed tier thresholds. -/
def calculateOverallComplexity (c : Complexity) : ComplexityAnalysis :=
  let score : ℚ :=
    (c.scope : ℚ) * 0.3 + (c.technical : ℚ) * 0.3 + (c.domain : ℚ) * 0.25 + (c.risk : ℚ) * 0.15
  let tier : Tier :=
    if score ≤ 3 then Tier.DIRECT
    else if score ≤ 6 then Tier.TIER_1
    else if score ≤ 8 then Tier.TIER_2
    else Tier.TIER_3
  { overallScore := score
    tier := tier
    breakdown := c
    confidence := calculateConfidence c
    recommendations := generateRecommendations c tier }

/-- Embeds `analyzeTask(task)` (lines 7-16). -/
def analyzeTask (task : Task) : ComplexityAnalysis :=
  calculateOverallComplexity
    { scope := analyzeScopeComplexity task
      technical := analyzeTechnicalComplexity task
      domain := analyzeDomainComplexity task
      risk := analyzeRiskLevel task }

end TaskComplexityAnalyzer

/-- JS number truthiness of an optional number: defined and nonzero. -/
def jsTruthyNum (x : Option ℚ) : Bool :=
  match x with
  | some q => q != 0
  | none => false

/-- JS `s.includes(sub)` on strings (substring containment). -/
def jsStringIncludes (s sub : String) : Bool :=
  s.data.tails.any (fun t => sub.data.isPrefixOf t)

namespace QualityAssurance

/-- A rubric check result: the fields of each check object that the aggregation reads. -/
structure QACheck where
  passed : Bool
  score : ℚ
deriving DecidableEq, Repr

/-- Result of `assessRisks`, which also carries the categorized risk level. -/
structure RiskCheck where
  passed : Bool
  riskLevel : String
  score : ℚ
deriving DecidableEq, Repr

/-- Capabilities record returned by `QualityAssurance.getSpecialistCapabilities`. -/
structure SpecialistCapabilitiesQA where
  domain : Option String
  technologies : Option (List String)
  minComplexity : ℚ
  maxComplexity : ℚ
deriving DecidableEq, Repr

/-- Embeds `getSpecialistCapabilities(specialist)` (QualityAssurance.js lines 282-290): the source
returns this fixed record for every specialist (the registry integration is a stub),
so the `Unknown specialist` early-return of `checkExpertiseAlignment` is unreachable. -/
def getSpecialistCapabilities (_specialist : String) : SpecialistCapabilitiesQA :=
  { domain := some ("integration")
    technologies := some [("rest"), ("graphql"), ("webhooks")]
    minComplexity := 3
    maxComplexity := 6 }

/-- Embeds `calculateDomainMatch` (lines 292-296). -/
def calculateDomainMatch (specialistDomain taskDomain : String) : ℚ :=
  if specialistDomain == taskDomain then 1.0 else 0.5

/-- Embeds `calculateTechnologyMatch` (lines 298-301). In JS an empty `taskTechs` yields `NaN`
(`0/0`), which fails every `≥` bar exactly as the `0` produced here does. -/
def calculateTechnologyMatch (specialistTechs taskTechs : List String) : ℚ :=
  ((taskTechs.countP (fun tech => specialistTechs.contains tech) : ℕ) : ℚ)
    / (taskTechs.length : ℚ)

/-- Embeds `checkComplexityFit` (lines 303-306). -/
def checkComplexityFit (caps : SpecialistCapabilitiesQA) (complexityScore : ℚ) : ℚ :=
  if caps.minComplexity ≤ complexityScore ∧ complexityScore ≤ caps.maxComplexity
  then 1.0 else 0.5

/-- Embeds `checkExpertiseAlignment(specialist, task)` (lines 37-87): three 10-point components
(domain, technology, complexity fit), `finalScore = alignmentScore / 30`, bar `0.7`. -/
def checkExpertiseAlignment (specialist : String) (task : Task) : QACheck :=
  let caps := getSpecialistCapabilities specialist
  let domainComponent : ℚ :=
    if jsTruthyStr caps.domain && jsTruthyStr task.domain then
      calculateDomainMatch (caps.domain.getD ("")) (task.domain.getD ("")) * 10
    else 0
  let techComponent : ℚ :=
    if caps.technologies.isSome && task.technologies.isSome then
      calculateTechnologyMatch (caps.technologies.getD []) (task.technologies.getD []) * 10
    else 0
  let complexityComponent : ℚ :=
    if jsTruthyNum task.complexityScore then
      checkComplexityFit caps (task.complexityScore.getD 0) * 10
    else 0
  let alignmentScore := domainComponent + techComponent + complexityComponent
  let maxScore : ℚ := 30
  let finalScore := alignmentScore / maxScore
  { passed := decide (finalScore ≥ 0.7), score := finalScore }

/-- The recommendation object, with the fields the quality rubric reads.
String-valued fields are truthy when present and nonempty; array-valued fields are
truthy whenever present (JS array truthiness). -/
structure Recommendation where
  description : Option String := none
  implementation : Option String := none
  testing : Option String := none
  deployment : Option String := none
  timeline : Option String := none
  resources : Option (List String) := none
  documentation : Option String := none
  dependencies : Option (List String) := none
  skillsRequired : Option (List String) := none
  toolsRequired : Option (List String) := none
deriving DecidableEq, Repr

/-- Outputs of `QualityAssurance` leaf helpers that are invoked by the source but are not
defined anywhere in the repository snapshot (`assessTechnicalRisks`, `assessSecurityRisks`,
`assessPerformanceRisks`, `assessMaintenanceRisks`, `assessBusinessRisks`,
`categorizeRiskLevel`, `checkArchitecturalConsistency`, `checkCodingStandards`,
`checkNamingConsistency`, `checkPatternConsistency`, `checkDataProtection`,
`checkAccessControl`, `checkInputValidation`, `checkOutputSanitization`,
`checkCryptographyUsage`, `checkVulnerabilityIntroduction`), together with the values of
`checkBestPractices` and `checkTestability`, which scan the JSON serialization of the
recommendation (the serialization itself is abstracted).
Modelled from the spec: §4.4 fixes only how these leaves are aggregated (averages,
counted flags, the `1 − average` risk inversion, risk bar "not high"); the aggregation is
embedded faithfully from the source and quantified over all possible leaf outputs. -/
structure RecommendationAnalysis where
  technicalRiskScore : ℚ := 0
  securityRiskScore : ℚ := 0
  performanceRiskScore : ℚ := 0
  maintenanceRiskScore : ℚ := 0
  businessRiskScore : ℚ := 0
  categorizeRiskLevel : ℚ → String := fun _ => ("low")
  architecturalConsistent : Bool := true
  codingStandardsConsistent : Bool := true
  namingConsistent : Bool := true
  patternConsistent : Bool := true
  dataProtectionSecure : Bool := true
  accessControlSecure : Bool := true
  inputValidationSecure : Bool := true
  outputSanitizationSecure : Bool := true
  cryptographySecure : Bool := true
  vulnerabilitySecure : Bool := true
  bestPracticesScore : ℚ := 0
  testabilityScore : ℚ := 0

/-- Embeds `checkCompleteness(recommendation)` (lines 308-314): count of
`implementation`/`testing`/`deployment` elements present (as a field, or mentioned in the
description), divided by 3. -/
def checkCompleteness (r : Recommendation) : ℚ :=
  let present (field : Option String) (element : String) : Bool :=
    jsTruthyStr field ||
      (match r.description with
       | some d => jsStringIncludes d element
       | none => false)
  (((if present r.implementation ("implementation") then 1 else 0)
    + (if present r.testing ("testing") then 1 else 0)
    + (if present r.deployment ("deployment") then 1 else 0) : ℕ) : ℚ) / 3

/-- Embeds `checkClarity` (lines 316-320). -/
def checkClarity (r : Recommendation) : ℚ :=
  let description := r.description.getD ("")
  if description.length > 50 then 0.8 else 0.4

/-- Embeds `checkFeasibility` (lines 322-325). -/
def checkFeasibility (r : Recommendation) : ℚ :=
  if jsTruthyStr r.timeline && r.resources.isSome then 0.9 else 0.6

/-- Embeds `checkDocumentation` (lines 344-346). -/
def checkDocumentation (r : Recommendation) : ℚ :=
  if jsTruthyStr r.documentation then 1.0 else 0.3

/-- Embeds `assessRecommendationQuality(recommendation)` (lines 89-108): the average of the six
quality factors, bar `0.8`. -/
def assessRecommendationQuality (r : Recommendation) (ra : RecommendationAnalysis) : QACheck :=
  let scores : List ℚ :=
    [checkCompleteness r, checkClarity r, checkFeasibility r,
     ra.bestPracticesScore, checkDocumentation r, ra.testabilityScore]
  let averageScore := scores.sum / (scores.length : ℚ)
  { passed := decide (averageScore ≥ 0.8), score := averageScore }

/-- Embeds `checkTimelineRealistic` (lines 370-375): `recommendation.timeline ? true : false`. -/
def checkTimelineRealistic (r : Recommendation) : Bool :=
  jsTruthyStr r.timeline

/-- Embeds `checkImplementationViability(recommendation)` (lines 110-129): of the five viability
sub-checks, `resourceRequirements`, `dependenciesAvailable`, `skillRequirements` and
`toolAvailability` are hard-coded to pass; only `timelineRealistic` can fail. Score is the
fraction of passing sub-checks, bar `0.8`. -/
def checkImplementationViability (r : Recommendation) : QACheck :=
  let checks : List Bool := [true, checkTimelineRealistic r, true, true, true]
  let viabilityScore : ℚ := (checks.count true : ℚ) / (checks.length : ℚ)
  { passed := decide (viabilityScore ≥ 0.8), score := viabilityScore }

/-- Embeds `assessRisks(recommendation)` (lines 131-152): average the five risk-category scores,
categorize the total, pass exactly when the level is not "high", and invert the risk score
for quality scoring. -/
def assessRisks (ra : RecommendationAnalysis) : RiskCheck :=
  let riskScores : List ℚ :=
    [ra.technicalRiskScore, ra.securityRiskScore, ra.performanceRiskScore,
     ra.maintenanceRiskScore, ra.businessRiskScore]
  let totalRiskScore := riskScores.sum / (riskScores.length : ℚ)
  let riskLevel := ra.categorizeRiskLevel totalRiskScore
  { passed := riskLevel != ("high"), riskLevel := riskLevel, score := 1 - totalRiskScore }

/-- Embeds `checkConsistency(recommendation, task)` (lines 154-172): fraction of the four
consistency flags, bar `0.9`. -/
def checkConsistency (ra : RecommendationAnalysis) : QACheck :=
  let checks : List Bool :=
    [ra.architecturalConsistent, ra.codingStandardsConsistent,
     ra.namingConsistent, ra.patternConsistent]
  let consistencyScore : ℚ := (checks.count true : ℚ) / (checks.length : ℚ)
  { passed := decide (consistencyScore ≥ 0.9), score := consistencyScore }

/-- Embeds `checkSecurityImplications(recommendation)` (lines 174-194): fraction of the six
security flags, bar `0.95` — the strictest gate. -/
def checkSecurityImplications (ra : RecommendationAnalysis) : QACheck :=
  let checks : List Bool :=
    [ra.dataProtectionSecure, ra.accessControlSecure, ra.inputValidationSecure,
     ra.outputSanitizationSecure, ra.cryptographySecure, ra.vulnerabilitySecure]
  let securityScore : ℚ := (checks.count true : ℚ) / (checks.length : ℚ)
  { passed := decide (securityScore ≥ 0.95), score := securityScore }

/-- The six-check record built by `validateSpecialistRecommendation`. -/
structure QAChecks where
  expertiseAlignment : QACheck
  recommendationQuality : QACheck
  implementationViability : QACheck
  riskAssessment : RiskCheck
  consistencyCheck : QACheck
  securityCheck : QACheck
deriving DecidableEq, Repr

/-- Embeds `calculateQualityScore(checks)` (lines 196-217): the fixed-weight sum. All six checks
are always present in the record, so `totalWeight` is always `1`. -/
def calculateQualityScore (checks : QAChecks) : ℚ :=
  let totalScore :=
    checks.expertiseAlignment.score * 0.2
    + checks.recommendationQuality.score * 0.25
    + checks.implementationViability.score * 0.2
    + checks.riskAssessment.score * 0.15
    + checks.consistencyCheck.score * 0.1
    + checks.securityCheck.score * 0.1
  let totalWeight : ℚ := 0.2 + 0.25 + 0.2 + 0.15 + 0.1 + 0.1
  totalScore / totalWeight

/-- Embeds `allChecksPassed(checks)` (lines 219-221): `Object.values(checks).every(c => c.passed)`. -/
def allChecksPassed (checks : QAChecks) : Bool :=
  checks.expertiseAlignment.passed && checks.recommendationQuality.passed &&
  checks.implementationViability.passed && checks.riskAssessment.passed &&
  checks.consistencyCheck.passed && checks.securityCheck.passed

/-- Embeds `needsEscalation(checks)` (lines 239-250): a critical (security/risk) failure, or the
weighted overall score below `0.6`. -/
def needsEscalation (checks : QAChecks) : Bool :=
  let hasCriticalFailure := !checks.securityCheck.passed || !checks.riskAssessment.passed
  let overallScore := calculateQualityScore checks
  hasCriticalFailure || decide (overallScore < 0.6)

/-- Embeds `assignQualityGrade(score)` (lines 252-264). -/
def assignQualityGrade (score : ℚ) : String :=
  if score ≥ 0.95 then ("A+")
  else if score ≥ 0.90 then ("A")
  else if score ≥ 0.85 then ("A-")
  else if score ≥ 0.80 then ("B+")
  else if score ≥ 0.75 then ("B")
  else if score ≥ 0.70 then ("B-")
  else if score ≥ 0.65 then ("C+")
  else if score ≥ 0.60 then ("C")
  else if score ≥ 0.55 then ("C-")
  else if score ≥ 0.50 then ("D")
  else ("F")

/-- The validation object returned by `validateSpecialistRecommendation` (the
`improvements` advice list and the wall-clock `timestamp` are omitted as purely
informational). -/
structure QualityValidation where
  passed : Bool
  score : ℚ
  checks : QAChecks
  escalationNeeded : Bool
  qualityGrade : String
deriving DecidableEq, Repr

/-- Embeds `validateSpecialistRecommendation(specialist, recommendation, task)` (lines 13-35). -/
def validateSpecialistRecommendation (specialist : String) (r : Recommendation)
    (ra : RecommendationAnalysis) (task : Task) : QualityValidation :=
  let checks : QAChecks :=
    { expertiseAlignment := checkExpertiseAlignment specialist task
      recommendationQuality := assessRecommendationQuality r ra
      implementationViability := checkImplementationViability r
      riskAssessment := assessRisks ra
      consistencyCheck := checkConsistency ra
      securityCheck := checkSecurityImplications ra }
  let overallScore := calculateQualityScore checks
  { passed := allChecksPassed checks
    score := overallScore
    checks := checks
    escalationNeeded := needsEscalation checks
    qualityGrade := assignQualityGrade overallScore }

end QualityAssurance

/-- JS template interpolation of a possibly-undefined string (`undefined` prints as
the text "undefined"). -/
def jsTemplateStr (s : Option String) : String :=
  s.getD ("undefined")

/-- JS join of an optional array with a single-space separator, interpolated into a template (an undefined array prints as
the text "undefined"). -/
def jsOptJoin (xs : Option (List String)) : String :=
  match xs with
  | some l => String.intercalate (" ") l
  | none => ("undefined")

/-- JS `s.toLowerCase()`: lowercase the characters. -/
def jsToLower (s : String) : String :=
  String.mk (s.data.map Char.toLower)

namespace TaskRouter

open TaskComplexityAnalyzer

/-- The `domainKeywords` table of `identifyDomain` (TaskRouter.js lines 47-56), in source
(object-insertion) order, which is the order `Object.entries` iterates. -/
def domainKeywords : List (String × List String) :=
  [ (("data"), [("database"), ("query"), ("analytics"), ("etl"), ("warehouse"), ("lake")]),
    (("security"), [("auth"), ("oauth"), ("jwt"), ("encryption"), ("vulnerability"), ("compliance")]),
    (("performance"), [("optimization"), ("caching"), ("scaling"), ("latency"), ("throughput")]),
    (("integration"), [("api"), ("webhook"), ("service"), ("microservice"), ("messaging")]),
    (("frontend"), [("ui"), ("ux"), ("react"), ("vue"), ("angular"), ("component")]),
    (("architecture"), [("design"), ("pattern"), ("structure"), ("system"), ("scalability")]),
    (("ml"), [("machine-learning"), ("ai"), ("model"), ("prediction"), ("classification")]),
    (("testing"), [("test"), ("qa"), ("automation"), ("ci/cd"), ("deployment")]) ]

/-- Embeds `identifyDomain(task)` (lines 42-67): the explicit `domain` field wins when truthy;
otherwise the first keyword table row with a substring match against the lowercased text
built from description, requirements and technologies; otherwise "general". -/
def identifyDomain (task : Task) : String :=
  if jsTruthyStr task.domain then task.domain.getD ("")
  else
    let taskText :=
      jsToLower (jsTemplateStr task.description ++ (" ") ++ jsOptJoin task.requirements
        ++ (" ") ++ jsOptJoin task.technologies)
    match domainKeywords.find?
        (fun dk => dk.snd.any (fun keyword => jsStringIncludes taskText keyword)) with
    | some dk => dk.fst
    | none => ("general")

/-- Association-list lookup used for the tier specialist mappings. -/
def lookupMapping (m : List (String × List String)) (domain : String) : Option (List String) :=
  (m.find? (fun p => p.fst == domain)).map (fun p => p.snd)

/-- The `TIER_1` row of `specialistMapping` (lines 72-80). -/
def tier1Mapping : List (String × List String) :=
  [ (("data"), [("data-generalist")]),
    (("security"), [("security-generalist")]),
    (("performance"), [("performance-generalist")]),
    (("integration"), [("integration-generalist")]),
    (("frontend"), [("frontend-generalist")]),
    (("architecture"), [("architecture-generalist")]),
    (("general"), [("architecture-generalist")]) ]

/-- The `TIER_2` row of `specialistMapping` (lines 81-89). -/
def tier2Mapping : List (String × List String) :=
  [ (("data"), [("database-specialist")]),
    (("security"), [("auth-systems-specialist")]),
    (("performance"), [("performance-optimization-specialist")]),
    (("integration"), [("api-design-specialist")]),
    (("ml"), [("ml-integration-specialist")]),
    (("testing"), [("testing-strategy-specialist")]),
    (("general"), [("database-specialist"), ("api-design-specialist")]) ]

/-- The `TIER_3` row of `specialistMapping` (lines 90-98). -/
def tier3Mapping : List (String × List String) :=
  [ (("data"), [("data-architect")]),
    (("security"), [("security-architect")]),
    (("integration"), [("integration-architect")]),
    (("architecture"), [("system-architect")]),
    (("scale"), [("scale-architect")]),
    (("governance"), [("governance-architect")]),
    (("general"), [("system-architect")]) ]

/-- Embeds `getSpecialistsForDomain(domain, tier)` (lines 69-102):
`specialistMapping[tier]?.[domain]`, falling back to the "general" row, then to `[]`.
The `DIRECT` row is an empty array (property lookups on it yield `undefined`), and an
`EXTERNAL` key does not exist, so both produce `[]`. -/
def getSpecialistsForDomain (domain : String) (tier : Tier) : List String :=
  match tier with
  | .DIRECT => []
  | .TIER_1 => (lookupMapping tier1Mapping domain).getD
      ((lookupMapping tier1Mapping ("general")).getD [])
  | .TIER_2 => (lookupMapping tier2Mapping domain).getD
      ((lookupMapping tier2Mapping ("general")).getD [])
  | .TIER_3 => (lookupMapping tier3Mapping domain).getD
      ((lookupMapping tier3Mapping ("general")).getD [])
  | .EXTERNAL => []

/-- A specialist capability record of the router-local `getSpecialistCapabilities` table
(lines 153-266). An unknown specialist yields `{}`, i.e. every field `undefined`. -/
structure RouterCapabilities where
  domains : Option (List String) := none
  technologies : Option (List String) := none
  minComplexity : Option ℚ := none
  maxComplexity : Option ℚ := none
deriving DecidableEq, Repr

/-- Embeds `TaskRouter.getSpecialistCapabilities(specialist)` (lines 153-266). -/
def getSpecialistCapabilities (specialist : String) : RouterCapabilities :=
  if specialist == ("architecture-generalist") then
    { domains := some [("architecture"), ("design"), ("system")]
      technologies := some [("microservices"), ("design-patterns"), ("scalability")]
      minComplexity := some 3, maxComplexity := some 6 }
  else if specialist == ("security-generalist") then
    { domains := some [("security"), ("auth")]
      technologies := some [("oauth"), ("jwt"), ("encryption")]
      minComplexity := some 3, maxComplexity := some 6 }
  else if specialist == ("performance-generalist") then
    { domains := some [("performance"), ("optimization")]
      technologies := some [("caching"), ("monitoring"), ("profiling")]
      minComplexity := some 3, maxComplexity := some 6 }
  else if specialist == ("data-generalist") then
    { domains := some [("data"), ("database")]
      technologies := some [("sql"), ("nosql"), ("analytics")]
      minComplexity := some 3, maxComplexity := some 6 }
  else if specialist == ("integration-generalist") then
    { domains := some [("integration"), ("api")]
      technologies := some [("rest"), ("graphql"), ("webhooks")]
      minComplexity := some 3, maxComplexity := some 6 }
  else if specialist == ("frontend-generalist") then
    { domains := some [("frontend"), ("ui")]
      technologies := some [("react"), ("vue"), ("angular")]
      minComplexity := some 3, maxComplexity := some 6 }
  else if specialist == ("database-specialist") then
    { domains := some [("data"), ("database")]
      technologies := some [("postgresql"), ("redis"), ("mongodb")]
      minComplexity := some 6, maxComplexity := some 8 }
  else if specialist == ("api-design-specialist") then
    { domains := some [("integration"), ("api")]
      technologies := some [("rest"), ("graphql"), ("openapi")]
      minComplexity := some 6, maxComplexity := some 8 }
  else if specialist == ("auth-systems-specialist") then
    { domains := some [("security"), ("auth")]
      technologies := some [("oauth2"), ("saml"), ("jwt"), ("mfa")]
      minComplexity := some 6, maxComplexity := some 8 }
  else if specialist == ("performance-optimization-specialist") then
    { domains := some [("performance")]
      technologies := some [("profiling"), ("optimization"), ("monitoring")]
      minComplexity := some 6, maxComplexity := some 8 }
  else if specialist == ("ml-integration-specialist") then
    { domains := some [("ml"), ("ai")]
      technologies := some [("tensorflow"), ("pytorch"), ("ml-apis")]
      minComplexity := some 6, maxComplexity := some 8 }
  else if specialist == ("testing-strategy-specialist") then
    { domains := some [("testing"), ("qa")]
      technologies := some [("jest"), ("cypress"), ("ci-cd")]
      minComplexity := some 6, maxComplexity := some 8 }
  else if specialist == ("system-architect") then
    { domains := some [("architecture"), ("system")]
      technologies := some [("enterprise"), ("distributed-systems")]
      minComplexity := some 8, maxComplexity := some 10 }
  else if specialist == ("integration-architect") then
    { domains := some [("integration")]
      technologies := some [("service-mesh"), ("event-driven")]
      minComplexity := some 8, maxComplexity := some 10 }
  else if specialist == ("scale-architect") then
    { domains := some [("scale"), ("performance")]
      technologies := some [("horizontal-scaling"), ("distributed-systems")]
      minComplexity := some 8, maxComplexity := some 10 }
  else if specialist == ("security-architect") then
    { domains := some [("security")]
      technologies := some [("enterprise-security"), ("compliance")]
      minComplexity := some 8, maxComplexity := some 10 }
  else if specialist == ("data-architect") then
    { domains := some [("data")]
      technologies := some [("data-lakes"), ("warehouses"), ("governance")]
      minComplexity := some 8, maxComplexity := some 10 }
  else if specialist == ("governance-architect") then
    { domains := some [("governance")]
      technologies := some [("compliance"), ("policy-enforcement")]
      minComplexity := some 8, maxComplexity := some 10 }
  else {}

/-- Embeds `calculateSpecialistScore(specialist, task, complexity)` (lines 119-151).
`getSpecialistPerformance` returns `null` in the source, so the historical-performance
bonus never applies; comparisons against `undefined` capability bounds are false. -/
def calculateSpecialistScore (specialist : String) (task : Task)
    (complexity : ComplexityAnalysis) : ℚ :=
  let caps := getSpecialistCapabilities specialist
  let domainBonus : ℚ :=
    if optIncludes caps.domains (identifyDomain task) then 10 else 0
  let techBonus : ℚ :=
    match task.technologies with
    | some techs =>
      ((techs.countP (fun tech => optIncludes caps.technologies tech) : ℕ) : ℚ) * 2
    | none => 0
  let complexityBonus : ℚ :=
    match caps.minComplexity, caps.maxComplexity with
    | some lo, some hi =>
      if lo ≤ complexity.overallScore ∧ complexity.overallScore ≤ hi then 5 else 0
    | _, _ => 0
  domainBonus + techBonus + complexityBonus

/-- Embeds `selectBestSpecialist(specialists, task, complexity)` (lines 104-117): empty list gives
`null`, a single candidate is returned unscored; otherwise the candidates are scored and
sorted descending (stable), i.e. the first candidate of maximal score wins. -/
def selectBestSpecialist (specialists : List String) (task : Task)
    (complexity : ComplexityAnalysis) : Option String :=
  match specialists with
  | [] => none
  | [s] => some s
  | s :: rest =>
    let best := rest.foldl
      (fun acc sp =>
        let sc := calculateSpecialistScore sp task complexity
        if sc > acc.snd then (sp, sc) else acc)
      (s, calculateSpecialistScore s task complexity)
    some best.fst

/-- Embeds `selectSpecialist(task, complexity)` (lines 34-40). -/
def selectSpecialist (task : Task) (complexity : ComplexityAnalysis) : Option String :=
  selectBestSpecialist (getSpecialistsForDomain (identifyDomain task) complexity.tier)
    task complexity

/-- Embeds `getProtocol(tier)` (lines 268-277). -/
def getProtocol (tier : Tier) : Option String :=
  match tier with
  | .DIRECT => some ("direct-implementation")
  | .TIER_1 => some ("quick-consultation")
  | .TIER_2 => some ("deep-analysis")
  | .TIER_3 => some ("architectural-coordination")
  | .EXTERNAL => none

/-- JS `Math.round` (round half toward positive infinity). -/
def jsRound (x : ℚ) : ℤ :=
  Int.floor (x + 1 / 2)

/-- The `baseTime` table of `estimateTime` (lines 280-285), with the fallback to the DIRECT base time for a tier without an entry. -/
def baseTime (tier : Tier) : ℚ :=
  match tier with
  | .DIRECT => 30
  | .TIER_1 => 120
  | .TIER_2 => 480
  | .TIER_3 => 1440
  | .EXTERNAL => 30

/-- Embeds `estimateTime(complexity, specialist)` (lines 279-293). -/
def estimateTime (complexity : ComplexityAnalysis) : ℤ :=
  let tierTime := baseTime complexity.tier
  let complexityMultiplier := 1 + complexity.overallScore / 10
  jsRound (tierTime * complexityMultiplier)

/-- Embeds `getQualityChecks(tier)` (lines 295-305), with the `DIRECT` fallback. -/
def getQualityChecks (tier : Tier) : List String :=
  match tier with
  | .DIRECT => [("syntax-check"), ("basic-test")]
  | .TIER_1 => [("syntax-check"), ("unit-tests"), ("code-review")]
  | .TIER_2 => [("syntax-check"), ("unit-tests"), ("integration-tests"), ("code-review"),
                ("security-scan")]
  | .TIER_3 => [("syntax-check"), ("unit-tests"), ("integration-tests"), ("e2e-tests"),
                ("code-review"), ("security-scan"), ("performance-test"),
                ("architectural-review")]
  | .EXTERNAL => [("syntax-check"), ("basic-test")]

/-- The nested `routing` object of a routing decision (its wall-clock timestamp and the
pass-through caller context are omitted). -/
structure RoutingMeta where
  tier : Tier
  confidence : ℚ
deriving DecidableEq, Repr

/-- The decision object returned by `TaskRouter.route`. -/
structure RoutingDecision where
  complexity : ComplexityAnalysis
  specialist : Option String
  protocol : Option String
  estimatedTime : ℤ
  qualityChecks : List String
  routing : RoutingMeta
deriving DecidableEq, Repr

/-- Embeds `TaskRouter.route(task, context)` (lines 15-32). -/
def route (task : Task) : RoutingDecision :=
  let complexity := analyzeTask task
  let specialist := selectSpecialist task complexity
  { complexity := complexity
    specialist := specialist
    protocol := getProtocol complexity.tier
    estimatedTime := estimateTime complexity
    qualityChecks := getQualityChecks complexity.tier
    routing := { tier := complexity.tier, confidence := complexity.confidence } }

end TaskRouter

namespace ErrorRecoverySystem

/-- The failure descriptor consumed by `autoEscalateTier` and its helpers
(`preserveContext`, `identifyRequiredExpertise`, `calculateUrgency`). -/
structure FailureInfo where
  primaryCause : Option String := none
  severity : ℚ := 0
  failureTypes : Option (List String) := none
  affectsProduction : Bool := false
  blocksOtherWork : Bool := false
  task : Option String := none
  approach : Option String := none
  errorDetails : Option String := none
  environment : Option String := none
  timestamp : Option String := none
deriving DecidableEq, Repr

/-- Embeds `preserveContext(failure)` (SubAgentOrchestrator.js / ErrorRecoverySystem lines
908-916): the context fields of the failure, verbatim. -/
structure PreservedContext where
  originalTask : Option String
  attemptedApproach : Option String
  errorDetails : Option String
  environment : Option String
  timestamp : Option String
deriving DecidableEq, Repr

/-- Embeds `preserveContext(failure)`. -/
def preserveContext (failure : FailureInfo) : PreservedContext :=
  { originalTask := failure.task
    attemptedApproach := failure.approach
    errorDetails := failure.errorDetails
    environment := failure.environment
    timestamp := failure.timestamp }

/-- The `expertiseMap` table of `identifyRequiredExpertise` (lines 918-926). -/
def expertiseMap (failureType : String) : List String :=
  if failureType == ("syntax") then [("code-review-specialist")]
  else if failureType == ("logic") then [("algorithm-specialist"), ("testing-specialist")]
  else if failureType == ("integration") then
    [("integration-specialist"), ("api-specialist")]
  else if failureType == ("performance") then [("performance-specialist")]
  else if failureType == ("security") then [("security-specialist")]
  else []

/-- Embeds `identifyRequiredExpertise(failure)` (lines 918-935): collect the mapped experts for
each failure type into a `Set` (insertion order, first occurrence wins). -/
def identifyRequiredExpertise (failure : FailureInfo) : List String :=
  (failure.failureTypes.getD []).foldl
    (fun acc failureType =>
      (expertiseMap failureType).foldl
        (fun acc2 expert => if acc2.contains expert then acc2 else acc2 ++ [expert]) acc)
    []

/-- Embeds `calculateUrgency(failure)` (lines 937-948). -/
def calculateUrgency (failure : FailureInfo) : ℚ :=
  let base : ℚ := 1
  let bySeverity :=
    base + (if failure.severity ≥ 8 then 3
            else if failure.severity ≥ 5 then 2
            else if failure.severity ≥ 3 then 1 else 0)
  let urgency := bySeverity + (if failure.affectsProduction then 2 else 0)
    + (if failure.blocksOtherWork then 1 else 0)
  min urgency 5

/-- The escalation strategy object built by `autoEscalateTier` (lines 641-649). The source
field names are `from`/`to` (`from` is a Lean keyword). Its `estimatedResolution` field is
computed by `estimateResolutionTime`, which is invoked but defined nowhere in the
repository snapshot; it is omitted here as purely informational. -/
structure EscalationStrategy where
  fromTier : Tier
  toTier : Tier
  reason : String
  context : PreservedContext
  specialistRequirements : List String
  urgency : ℚ
deriving DecidableEq, Repr

/-- The result of `autoEscalateTier` (lines 636-658). The success branch of the source
additionally computes `timeline`, `resources`, `successProbability` and `rollbackPlan`
through helpers (`estimateEscalationTime`, `calculateRequiredResources`,
`estimateSuccessProbability`, `createEscalationRollbackPlan`) that are invoked but defined
nowhere in the repository snapshot; those informational fields are omitted. -/
structure EscalationResult where
  canEscalate : Bool
  escalation : Option EscalationStrategy := none
  reason : Option String := none
deriving DecidableEq, Repr

/-- The fixed `escalationMatrix` of `autoEscalateTier` (lines 629-634): the key set is
exactly the four non-terminal tier names, so `EXTERNAL` has no entry. -/
def escalationMatrix (currentTier : Tier) : Option (Tier × String) :=
  match currentTier with
  | .DIRECT => some (.TIER_1, ("Direct implementation failed"))
  | .TIER_1 => some (.TIER_2, ("Tier 1 consultation insufficient"))
  | .TIER_2 => some (.TIER_3, ("Tier 2 analysis incomplete"))
  | .TIER_3 => some (.EXTERNAL, ("Internal expertise exceeded"))
  | .EXTERNAL => none

/-- Embeds `autoEscalateTier(currentTier, failure)` (lines 628-659). -/
def autoEscalateTier (currentTier : Tier) (failure : FailureInfo) : EscalationResult :=
  match escalationMatrix currentTier with
  | none => { canEscalate := false, reason := some ("Maximum tier reached") }
  | some esc =>
    { canEscalate := true
      escalation := some
        { fromTier := currentTier
          toTier := esc.fst
          reason := if jsTruthyStr failure.primaryCause
                    then failure.primaryCause.getD ("") else esc.snd
          context := preserveContext failure
          specialistRequirements := identifyRequiredExpertise failure
          urgency := calculateUrgency failure } }

end ErrorRecoverySystem

namespace SubAgentOrchestrator

open QualityAssurance ErrorRecoverySystem

/-- The consultation object constructed by `executeSpecialistConsultation`
(SubAgentOrchestrator.js lines 176-183). Its keys are `specialist`, `task`,
`recommendation`, `patterns`, `timestamp` and `result`; there is **no** `routing` key, so
`consultation.routing` is `undefined` (an `Option` that the constructor always leaves
`none`). The synthesized recommendation text and the pattern list are abstracted. -/
structure Consultation where
  specialist : Option String
  task : Task
  routing : Option TaskRouter.RoutingDecision := none
deriving DecidableEq, Repr

/-- Embeds `executeSpecialistConsultation(task, routing)` (lines 156-186): note that the routing
decision it receives is *not* stored on the consultation object it returns. -/
def executeSpecialistConsultation (task : Task)
    (routing : TaskRouter.RoutingDecision) : Consultation :=
  { specialist := routing.specialist, task := task, routing := none }

/-- Reading a `tier` property off a routing decision object: `TaskRouter.route` returns an
object whose tier lives under `complexity.tier` and `routing.tier` — a top-level `tier`
property does not exist, so the JS access `routing.tier` yields `undefined`. -/
def routingDecisionTierProp (_rd : TaskRouter.RoutingDecision) : Option Tier :=
  none

/-- The current-tier expression of `handleQualityFailure` (line 212):
`consultation.routing?.tier`, defaulting to TIER_1. -/
def handleQualityFailureFromTier (consultation : Consultation) : Tier :=
  ((consultation.routing.bind routingDecisionTierProp).getD Tier.TIER_1)

/-- The failure descriptor that `handleQualityFailure` passes to `autoEscalateTier`
(lines 211-218); `qualityIssues` is informational and omitted. -/
def qualityFailureInfo (qualityValidation : QualityValidation) : FailureInfo :=
  { primaryCause := some ("quality-validation-failure")
    severity := 10 - qualityValidation.score * 10 }

/-- The escalation decision computed inside `handleQualityFailure` (lines 207-220). -/
def handleQualityFailureEscalation (consultation : Consultation)
    (qualityValidation : QualityValidation) : EscalationResult :=
  autoEscalateTier (handleQualityFailureFromTier consultation)
    (qualityFailureInfo qualityValidation)

/-- What the steps 5-7 of `processTask` (lines 76-109) do with a non-`DIRECT`
consultation, as a function of its quality validation: escalate
(`!passed && escalationNeeded`, line 85), or else fall through to
`cacheSpecialistConsultation` (line 95) and `storeSuccessPattern` (line 108). -/
structure QualityFlowDecision where
  escalates : Bool
  cachesConsultation : Bool
  storesSuccessPattern : Bool
deriving DecidableEq, Repr

/-- The quality-gate branch of `processTask` (steps 5-7). -/
def processTaskQualityFlow (qualityValidation : QualityValidation) : QualityFlowDecision :=
  if !qualityValidation.passed && qualityValidation.escalationNeeded then
    { escalates := true, cachesConsultation := false, storesSuccessPattern := false }
  else
    { escalates := false, cachesConsultation := true, storesSuccessPattern := true }

/-- An entry of the orchestrator `performanceMetrics` map (lines 442-455); only the
fields `processFeedback` touches are relevant. -/
structure TaskMetrics where
  complexity : ℚ := 0
  executionTime : ℚ := 0
  qualityScore : ℚ := 0
  success : Bool := true
deriving DecidableEq, Repr

/-- User feedback passed to `processFeedback`. -/
structure Feedback where
  satisfaction : ℚ
deriving DecidableEq, Repr

/-- The acknowledgement returned by `processFeedback` (lines 535-539). -/
structure FeedbackAck where
  taskId : String
  feedbackProcessed : Bool
  systemUpdated : Bool
deriving DecidableEq, Repr

/-- Embeds `processFeedback(taskId, feedback)` (lines 519-540). The `performanceMetrics` map is an
explicit association list. The second component records whether the
dissatisfaction-learning path (`detectUserDissatisfaction` +
`integrateUserDissatisfactionFeedback`) ran; the internals of that path are absent from
the repository snapshot and are modelled from the spec as an opaque learning effect. -/
def processFeedback (performanceMetrics : List (String × TaskMetrics)) (taskId : String)
    (feedback : Feedback) : Except String FeedbackAck × Bool :=
  match performanceMetrics.find? (fun p => p.fst == taskId) with
  | none => (Except.error (("Task ") ++ taskId ++ (" not found")), false)
  | some _ =>
    let learningRan := decide (feedback.satisfaction < 0.6)
    (Except.ok
      { taskId := taskId
        feedbackProcessed := true
        systemUpdated := decide (feedback.satisfaction < 0.6) },
     learningRan)

end SubAgentOrchestrator

namespace ContextManager

/-- Lowercase hex digit. -/
def hexDigit (n : ℕ) : Char :=
  if n < 10 then Char.ofNat (48 + n) else Char.ofNat (87 + n)

/-- Embeds `JSON.stringify` escaping of a single character (quote, backslash, and the control
characters; all other characters are emitted verbatim). -/
def jsonEscapeChar (c : Char) : String :=
  if c == '\"' then ("\\\"")
  else if c == '\\' then ("\\\\")
  else if c == '\n' then ("\\n")
  else if c == '\r' then ("\\r")
  else if c == '\t' then ("\\t")
  else if c.toNat == 8 then ("\\b")
  else if c.toNat == 12 then ("\\f")
  else if c.toNat < 32 then
    ("\\u00") ++ String.singleton (hexDigit (c.toNat / 16))
      ++ String.singleton (hexDigit (c.toNat % 16))
  else String.singleton c

/-- Embeds `JSON.stringify` of a string value. -/
def jsonStr (s : String) : String :=
  ("\"") ++ String.join (s.data.map jsonEscapeChar) ++ ("\"")

/-- Embeds `JSON.stringify` of an array of strings. -/
def jsonStrArray (l : List String) : String :=
  ("[") ++ String.intercalate (",") (l.map jsonStr) ++ ("]")

/-- JS `ToInt32` (the coercion performed by `<<` and `&`). -/
def toInt32 (x : ℤ) : ℤ :=
  (x + 2 ^ 31) % 2 ^ 32 - 2 ^ 31

/-- One iteration of the `hashObject` loop (ContextManager.js lines 280-284):
`hash = ((hash << 5) - hash) + charCode; hash = hash & hash`. The shift coerces to a
32-bit integer, the add/subtract are exact, and `hash & hash` coerces the result back. -/
def hashStep (hash : ℤ) (code : ℕ) : ℤ :=
  toInt32 (toInt32 (hash * 32) - hash + code)

/-- The `hashObject` character loop over a serialized string. `charCodeAt` yields UTF-16
code units, which coincide with code points for the identifier-like strings in play. -/
def stringHash (s : String) : ℤ :=
  s.data.foldl (fun h c => hashStep h c.toNat) 0

/-- Digit character of `Number.prototype.toString(36)` (0-9 then a-z). -/
def base36Digit (n : ℕ) : Char :=
  if n < 10 then Char.ofNat (48 + n) else Char.ofNat (87 + n)

/-- Base-36 digit expansion, most significant first. -/
def natToBase36Aux (n : ℕ) : List Char :=
  if _h : n < 36 then [base36Digit n]
  else natToBase36Aux (n / 36) ++ [base36Digit (n % 36)]
decreasing_by exact Nat.div_lt_self (by omega) (by omega)

/-- JS `n.toString(36)` for a non-negative integer. -/
def natToBase36 (n : ℕ) : String :=
  String.mk (natToBase36Aux n)

/-- Embeds `hashObject(obj)` (lines 276-287) applied to the JSON serialization of the object:
`Math.abs(hash).toString(36)`. -/
def hashObject (json : String) : String :=
  natToBase36 (stringHash json).natAbs

/-- JS `array.sort()` on strings: lexicographic by code units, stable. The stable Mathlib
`insertionSort` over the string order computes the same list. -/
def jsSortStrings (l : List String) : List String :=
  l.insertionSort (fun a b => a ≤ b)

/-- Embeds `Math.floor(task.complexity / 2) * 2` — the even complexity bucket of
`generateTaskFingerprint` (line 144). -/
def bucketComplexity (c : ℚ) : ℤ :=
  Int.floor (c / 2) * 2

/-- Embeds `generateTaskFingerprint(task)` (lines 140-149): hash of the JSON serialization of
`{domain, technologies: sorted, complexity: even bucket, patterns: sorted}`.
`JSON.stringify` omits properties whose value is `undefined` and keeps insertion order. -/
def generateTaskFingerprint (task : Task) : String :=
  let fields : List (Option (String × String)) :=
    [ task.domain.map (fun d => ((("domain") : String), jsonStr d)),
      (task.technologies.map jsSortStrings).map
        (fun ts => ((("technologies") : String), jsonStrArray ts)),
      some ((("complexity") : String), toString (bucketComplexity task.complexity)),
      (task.patterns.map jsSortStrings).map
        (fun ps => ((("patterns") : String), jsonStrArray ps)) ]
  let presentFields := fields.filterMap id
  let body := String.intercalate (",")
    (presentFields.map (fun kv => jsonStr kv.fst ++ (":") ++ kv.snd))
  hashObject (("\x7b") ++ body ++ ("\x7d"))

/-- Embeds `generateCacheKey(consultation)` (lines 134-138): `` `${specialist}_${fingerprint}` ``. -/
def generateCacheKey (specialist : String) (task : Task) : String :=
  specialist ++ ("_") ++ generateTaskFingerprint task

/-- The consultation fields that `cacheSpecialistConsultation` copies into a cache entry
(`outcome` and `quality` are carried verbatim and not modelled). -/
structure CachedConsultation where
  specialist : String
  task : Task
  recommendation : QualityAssurance.Recommendation
deriving DecidableEq, Repr

/-- A specialist-cache entry (lines 39-48). `expirationTime`/`timestamp` are ISO strings in
the source; comparisons on them are exactly comparisons of the underlying milliseconds,
kept here as `ℚ`. -/
structure CacheEntry where
  specialist : String
  task : Task
  recommendation : QualityAssurance.Recommendation
  cacheKey : String
  expirationTime : ℚ
  timestamp : ℚ
deriving DecidableEq, Repr

/-- The in-memory `SpecialistCacheStorage` `Map` (lines 431-448), as an association list
with JS `Map` set/get/delete semantics. -/
abbrev SpecialistCache := List (String × CacheEntry)

/-- JS `Map.get`. -/
def cacheGet (m : SpecialistCache) (k : String) : Option CacheEntry :=
  (m.find? (fun p => p.fst == k)).map (fun p => p.snd)

/-- JS `Map.set` (replace in place, or append). -/
def cacheSet (m : SpecialistCache) (k : String) (v : CacheEntry) : SpecialistCache :=
  if m.any (fun p => p.fst == k) then
    m.map (fun p => if p.fst == k then (k, v) else p)
  else m ++ [(k, v)]

/-- JS `Map.delete`. -/
def cacheDelete (m : SpecialistCache) (k : String) : SpecialistCache :=
  m.filter (fun p => !(p.fst == k))

/-- Context-manager configuration: `parseTimeString(this.cacheExpiration)` in milliseconds.
The orchestrator default of 24h parses to 86 400 000. -/
structure CMConfig where
  baseExpirationMs : ℚ := 86400000
deriving DecidableEq, Repr

/-- Embeds `calculateExpiration(consultation)` (lines 151-160):
TTL = baseTTL × min((complexity || 5) / 5, 2), added to the current time. -/
def calculateExpiration (cm : CMConfig) (now : ℚ) (consultation : CachedConsultation) : ℚ :=
  let complexity : ℚ :=
    if consultation.task.complexity == 0 then 5 else consultation.task.complexity
  let complexityMultiplier := min (complexity / 5) 2
  now + cm.baseExpirationMs * complexityMultiplier

/-- Embeds `cacheSpecialistConsultation(consultation)` (lines 38-56), with `Date.now()` explicit.
The `updateSpecialistMetrics` analytics side effect is not modelled. -/
def cacheSpecialistConsultation (cm : CMConfig) (now : ℚ) (cache : SpecialistCache)
    (consultation : CachedConsultation) : CacheEntry × SpecialistCache :=
  let cacheEntry : CacheEntry :=
    { specialist := consultation.specialist
      task := consultation.task
      recommendation := consultation.recommendation
      cacheKey := generateCacheKey consultation.specialist consultation.task
      expirationTime := calculateExpiration cm now consultation
      timestamp := now }
  (cacheEntry, cacheSet cache cacheEntry.cacheKey cacheEntry)

/-- Embeds `isCacheExpired(cacheEntry)` (lines 162-164): strictly past the expiration time. -/
def isCacheExpired (now : ℚ) (cacheEntry : CacheEntry) : Bool :=
  decide (now > cacheEntry.expirationTime)

/-- Embeds `retrieveSpecialistCache(task, specialist)` (lines 58-72): miss on absent key; lazy
eviction of an expired entry; otherwise a hit (the `recordCacheHit` analytics event is not
modelled). Returns the result together with the updated cache map. -/
def retrieveSpecialistCache (now : ℚ) (cache : SpecialistCache) (task : Task)
    (specialist : String) : Option CacheEntry × SpecialistCache :=
  let cacheKey := generateCacheKey specialist task
  match cacheGet cache cacheKey with
  | none => (none, cache)
  | some cachedEntry =>
    if isCacheExpired now cachedEntry then (none, cacheDelete cache cacheKey)
    else (some cachedEntry, cache)

/-- An outcome record as consumed by `storeSuccessPattern`/`updatePatternUsage`. -/
structure Outcome where
  successful : Bool
  qualityScore : ℚ := 0
  userSatisfaction : ℚ := 0
  implementationTime : ℚ := 0
deriving DecidableEq, Repr

/-- The mutable numeric state of a stored pattern (lines 92-107). The `id`, normalized
task, specialist, approach, context and timestamp fields are carried verbatim and are not
modelled; `lastUsed` and the success-only `successMetrics` rolling averages are likewise
informational. -/
structure Pattern where
  usageCount : ℕ
  successRate : ℚ
deriving DecidableEq, Repr

/-- Embeds `storeSuccessPattern(consultation, outcome)` (lines 89-111): unsuccessful outcomes are
not stored; a stored pattern starts with `usageCount = 1`, `successRate = 1.0`. -/
def storeSuccessPattern (outcome : Outcome) : Option Pattern :=
  if !outcome.successful then none
  else some { usageCount := 1, successRate := 1.0 }

/-- Embeds `updatePatternUsage(patternId, outcome)` (lines 113-132): increment the usage count,
then fold the new outcome into the running success-rate average. -/
def updatePatternUsage (pattern : Pattern) (outcome : Outcome) : Pattern :=
  let usageCount := pattern.usageCount + 1
  let successRate :=
    (pattern.successRate * (((usageCount - 1 : ℕ)) : ℚ)
      + (if outcome.successful then 1 else 0)) / (usageCount : ℚ)
  { usageCount := usageCount, successRate := successRate }

/-- Count of successful outcomes in a list. -/
def countSuccessful (outcomes : List Outcome) : ℕ :=
  outcomes.countP (fun o => o.successful)

end ContextManager

namespace Scenarios

/-- The routing scenario input of spec §8:
`{complexity:9, scope:"enterprise", technologies:["distributed-systems","microservices"]}`. -/
def enterpriseScenarioTask : Task :=
  { complexity := 9
    scope := some ("enterprise")
    technologies := some [("distributed-systems"), ("microservices")] }

/-- A task perfectly aligned with the fixed capability stub of
`QualityAssurance.getSpecialistCapabilities`. -/
def qaScenarioTask : Task :=
  { domain := some ("integration")
    technologies := some [("rest")]
    complexityScore := some 4 }

/-- A recommendation that passes every recommendation-level sub-check. -/
def qaScenarioRecommendation : QualityAssurance.Recommendation :=
  { description :=
      some ("A complete implementation plan with far more than fifty characters of text.")
    implementation := some ("implementation plan")
    testing := some ("testing plan")
    deployment := some ("deployment plan")
    timeline := some ("2 weeks")
    resources := some [("engineer")]
    documentation := some ("docs") }

/-- Leaf-helper outputs with exactly one failed consistency flag, every security flag
secure, and zero risk: the resulting validation fails only the consistency bar. -/
def qaScenarioAnalysis : QualityAssurance.RecommendationAnalysis :=
  { bestPracticesScore := 1
    testabilityScore := 0.9
    patternConsistent := false }

end Scenarios

/-- An `Option (List String)` pair that is pointwise a permutation (the "same technologies
in any order" relation of the cache claims). -/
def optPerm (a b : Option (List String)) : Prop :=
  match a, b with
  | some l1, some l2 => l1.Perm l2
  | none, none => True
  | _, _ => False

end LemlistMCP

-- ===================================================================
-- Theorems
-- ===================================================================

namespace LemlistMCP

namespace TaskComplexityAnalyzer

/-- The scope sub-score is clamped into `[1, 10]`. -/
lemma analyzeScopeComplexity_bounds (task : Task) :
    1 ≤ analyzeScopeComplexity task ∧ analyzeScopeComplexity task ≤ 10 := by
  unfold analyzeScopeComplexity
  refine ⟨Nat.le_min.mpr ⟨?_, by omega⟩, Nat.min_le_right _ _⟩
  split_ifs <;> omega

/-- The technical sub-score is clamped into `[1, 10]`. -/
lemma analyzeTechnicalComplexity_bounds (task : Task) :
    1 ≤ analyzeTechnicalComplexity task ∧ analyzeTechnicalComplexity task ≤ 10 := by
  unfold analyzeTechnicalComplexity
  refine ⟨Nat.le_min.mpr ⟨?_, by omega⟩, Nat.min_le_right _ _⟩
  omega

/-- The domain sub-score is clamped into `[1, 10]`. -/
lemma analyzeDomainComplexity_bounds (task : Task) :
    1 ≤ analyzeDomainComplexity task ∧ analyzeDomainComplexity task ≤ 10 := by
  unfold analyzeDomainComplexity
  refine ⟨Nat.le_min.mpr ⟨?_, by omega⟩, Nat.min_le_right _ _⟩
  omega

/-- The risk sub-score is clamped into `[1, 10]`. -/
lemma analyzeRiskLevel_bounds (task : Task) :
    1 ≤ analyzeRiskLevel task ∧ analyzeRiskLevel task ≤ 10 := by
  unfold analyzeRiskLevel
  refine ⟨Nat.le_min.mpr ⟨?_, by omega⟩, Nat.min_le_right _ _⟩
  omega

/-- C1: for every task each of the four sub-scores lies in `[1,10]`; `overallScore`
equals `0.30·scope + 0.30·technical + 0.25·domain + 0.15·risk` (hence lies in `[1,10]`);
and the tier is exactly the fixed-threshold function of `overallScore`
(`≤3 → DIRECT`, `≤6 → TIER_1`, `≤8 → TIER_2`, otherwise `TIER_3`). -/
theorem c1_subscores_overall_and_tier (task : Task) :
    (1 ≤ (analyzeTask task).breakdown.scope ∧ (analyzeTask task).breakdown.scope ≤ 10) ∧
    (1 ≤ (analyzeTask task).breakdown.technical ∧ (analyzeTask task).breakdown.technical ≤ 10) ∧
    (1 ≤ (analyzeTask task).breakdown.domain ∧ (analyzeTask task).breakdown.domain ≤ 10) ∧
    (1 ≤ (analyzeTask task).breakdown.risk ∧ (analyzeTask task).breakdown.risk ≤ 10) ∧
    (analyzeTask task).overallScore =
      0.30 * ((analyzeTask task).breakdown.scope : ℚ)
      + 0.30 * ((analyzeTask task).breakdown.technical : ℚ)
      + 0.25 * ((analyzeTask task).breakdown.domain : ℚ)
      + 0.15 * ((analyzeTask task).breakdown.risk : ℚ) ∧
    (1 ≤ (analyzeTask task).overallScore ∧ (analyzeTask task).overallScore ≤ 10) ∧
    (analyzeTask task).tier =
      (if (analyzeTask task).overallScore ≤ 3 then Tier.DIRECT
       else if (analyzeTask task).overallScore ≤ 6 then Tier.TIER_1
       else if (analyzeTask task).overallScore ≤ 8 then Tier.TIER_2
       else Tier.TIER_3) := by
  obtain ⟨hs1, hs2⟩ := analyzeScopeComplexity_bounds task
  obtain ⟨ht1, ht2⟩ := analyzeTechnicalComplexity_bounds task
  obtain ⟨hd1, hd2⟩ := analyzeDomainComplexity_bounds task
  obtain ⟨hr1, hr2⟩ := analyzeRiskLevel_bounds task
  have hs1q : (1 : ℚ) ≤ (analyzeScopeComplexity task : ℚ) := by exact_mod_cast hs1
  have hs2q : (analyzeScopeComplexity task : ℚ) ≤ 10 := by exact_mod_cast hs2
  have ht1q : (1 : ℚ) ≤ (analyzeTechnicalComplexity task : ℚ) := by exact_mod_cast ht1
  have ht2q : (analyzeTechnicalComplexity task : ℚ) ≤ 10 := by exact_mod_cast ht2
  have hd1q : (1 : ℚ) ≤ (analyzeDomainComplexity task : ℚ) := by exact_mod_cast hd1
  have hd2q : (analyzeDomainComplexity task : ℚ) ≤ 10 := by exact_mod_cast hd2
  have hr1q : (1 : ℚ) ≤ (analyzeRiskLevel task : ℚ) := by exact_mod_cast hr1
  have hr2q : (analyzeRiskLevel task : ℚ) ≤ 10 := by exact_mod_cast hr2
  refine ⟨⟨hs1, hs2⟩, ⟨ht1, ht2⟩, ⟨hd1, hd2⟩, ⟨hr1, hr2⟩, ?_, ⟨?_, ?_⟩, ?_⟩
  · simp only [analyzeTask, calculateOverallComplexity]
    ring
  · simp only [analyzeTask, calculateOverallComplexity]
    linarith
  · simp only [analyzeTask, calculateOverallComplexity]
    linarith
  · rfl

/-- C10 counterexample: two tasks that agree on every field in the claim list
(scope, files, integrations, technologies, patterns, performance, scalability, domain,
compliance, businessLogic, dataRisk, systemRisk, implementationRisk, timeline) and on the
raw complexity, but differ in the `governance` field — which the claim list omits —
receive different analyses, so the four sub-scores are not derived solely from the listed
fields. -/
theorem c10_counterexample_hidden_scope_fields :
    analyzeTask ({} : Task) ≠ analyzeTask { ({} : Task) with governance := true } := by
  intro h
  have h2 := congrArg (fun a => a.breakdown.scope) h
  exact absurd h2 (by decide)

/-- C10 as amended: `analyzeTask` never reads `task.complexity` (two tasks differing only
in that field get identical analyses), and the analysis is determined by the fourteen claimed fields **plus** `databases`, `apis`, `services`, `crossTeam` and `governance`,
which the claim list omits. -/
theorem c10_complexity_never_read :
    (∀ (t : Task) (a b : ℚ),
      analyzeTask { t with complexity := a } = analyzeTask { t with complexity := b }) ∧
    (∀ t1 t2 : Task,
      t1.scope = t2.scope → t1.files = t2.files → t1.integrations = t2.integrations →
      t1.databases = t2.databases → t1.apis = t2.apis → t1.services = t2.services →
      t1.crossTeam = t2.crossTeam → t1.governance = t2.governance →
      t1.technologies = t2.technologies → t1.patterns = t2.patterns →
      t1.performance = t2.performance → t1.scalability = t2.scalability →
      t1.domain = t2.domain → t1.compliance = t2.compliance →
      t1.businessLogic = t2.businessLogic → t1.dataRisk = t2.dataRisk →
      t1.systemRisk = t2.systemRisk → t1.implementationRisk = t2.implementationRisk →
      t1.timeline = t2.timeline →
      analyzeTask t1 = analyzeTask t2) := by
  constructor
  · intro t a b
    rfl
  · intro t1 t2 h1 h2 h3 h4 h5 h6 h7 h8 h9 h10 h11 h12 h13 h14 h15 h16 h17 h18 h19
    unfold analyzeTask analyzeScopeComplexity analyzeTechnicalComplexity
      analyzeDomainComplexity analyzeRiskLevel perfReqIncludes timelinePressureIs
    rw [h1, h2, h3, h4, h5, h6, h7, h8, h9, h10, h11, h12, h13, h14, h15, h16, h17, h18,
      h19]

/-- Witness for `c10_complexity_never_read`: two concrete tasks differing in description
and raw complexity receive the same analysis. -/
theorem c10_witness_complexity_ignored :
    analyzeTask { description := some ("a"), complexity := 1 } =
      analyzeTask { description := some ("b"), complexity := 9 } :=
  (c10_complexity_never_read).2 _ _ rfl rfl rfl rfl rfl rfl rfl rfl rfl rfl rfl rfl rfl
    rfl rfl rfl rfl rfl rfl

end TaskComplexityAnalyzer

namespace QualityAssurance

/-- Value of the expertise check on the scenario inputs. -/
lemma qaScenario_expertise :
    checkExpertiseAlignment ("integration-generalist") Scenarios.qaScenarioTask =
      { passed := true, score := 1 } := by
  have h1 : (("integration" : String).isEmpty) = false := by decide
  have h2 : (List.countP
      (fun tech => ([("rest"), ("graphql"), ("webhooks")] : List String).contains tech)
      [("rest")]) = 1 := by decide
  norm_num [checkExpertiseAlignment, getSpecialistCapabilities, Scenarios.qaScenarioTask,
    calculateDomainMatch, calculateTechnologyMatch, checkComplexityFit, jsTruthyStr,
    jsTruthyNum, bne_iff_ne, h1, h2, QACheck.mk.injEq]

/-- Value of the recommendation-quality check on the scenario inputs. -/
lemma qaScenario_quality :
    assessRecommendationQuality Scenarios.qaScenarioRecommendation
      Scenarios.qaScenarioAnalysis = { passed := true, score := 14 / 15 } := by
  have h1 : (("A complete implementation plan with far more than fifty characters of text." : String).length > 50) = True := by decide
  have h2 : (("implementation plan" : String).isEmpty) = false := by decide
  have h3 : (("testing plan" : String).isEmpty) = false := by decide
  have h4 : (("deployment plan" : String).isEmpty) = false := by decide
  have h5 : (("2 weeks" : String).isEmpty) = false := by decide
  have h6 : (("docs" : String).isEmpty) = false := by decide
  norm_num [assessRecommendationQuality, Scenarios.qaScenarioRecommendation,
    Scenarios.qaScenarioAnalysis, checkCompleteness, checkClarity, checkFeasibility,
    checkDocumentation, jsTruthyStr, h1, h2, h3, h4, h5, h6, QACheck.mk.injEq]

/-- Value of the viability check on the scenario inputs. -/
lemma qaScenario_viability :
    checkImplementationViability Scenarios.qaScenarioRecommendation =
      { passed := true, score := 1 } := by
  have h5 : (("2 weeks" : String).isEmpty) = false := by decide
  norm_num [checkImplementationViability, checkTimelineRealistic,
    Scenarios.qaScenarioRecommendation, jsTruthyStr, h5, QACheck.mk.injEq]

/-- Value of the risk check on the scenario inputs. -/
lemma qaScenario_risk :
    assessRisks Scenarios.qaScenarioAnalysis =
      { passed := true, riskLevel := ("low"), score := 1 } := by
  have h1 : ((("low" : String) != ("high"))) = true := by decide
  norm_num [assessRisks, Scenarios.qaScenarioAnalysis, h1, RiskCheck.mk.injEq]

/-- Value of the consistency check on the scenario inputs. -/
lemma qaScenario_consistency :
    checkConsistency Scenarios.qaScenarioAnalysis = { passed := false, score := 3 / 4 } := by
  norm_num [checkConsistency, Scenarios.qaScenarioAnalysis, QACheck.mk.injEq]

/-- Value of the security check on the scenario inputs. -/
lemma qaScenario_security :
    checkSecurityImplications Scenarios.qaScenarioAnalysis =
      { passed := true, score := 1 } := by
  norm_num [checkSecurityImplications, Scenarios.qaScenarioAnalysis, QACheck.mk.injEq]

/-- Full value of the quality validation on the scenario inputs: every bar except
consistency is met, the weighted overall score is 23/24 ≈ 0.958 (grade A+), yet the
validation does not pass, and no escalation is required. -/
lemma qaScenario_validate :
    validateSpecialistRecommendation ("integration-generalist")
      Scenarios.qaScenarioRecommendation Scenarios.qaScenarioAnalysis
      Scenarios.qaScenarioTask =
      { passed := false
        score := 23 / 24
        checks :=
          { expertiseAlignment := { passed := true, score := 1 }
            recommendationQuality := { passed := true, score := 14 / 15 }
            implementationViability := { passed := true, score := 1 }
            riskAssessment := { passed := true, riskLevel := ("low"), score := 1 }
            consistencyCheck := { passed := false, score := 3 / 4 }
            securityCheck := { passed := true, score := 1 } }
        escalationNeeded := false
        qualityGrade := ("A+") } := by
  unfold validateSpecialistRecommendation
  rw [qaScenario_expertise, qaScenario_quality, qaScenario_viability, qaScenario_risk,
    qaScenario_consistency, qaScenario_security]
  norm_num [calculateQualityScore, allChecksPassed, needsEscalation, assignQualityGrade,
    QualityValidation.mk.injEq, QAChecks.mk.injEq, QACheck.mk.injEq, RiskCheck.mk.injEq]

/-- C2: `validateSpecialistRecommendation` sets `passed` exactly when every one of the six
checks meets its own bar (expertise ≥ 0.70, quality ≥ 0.80, viability ≥ 0.80, risk level
not "high", consistency ≥ 0.90, security ≥ 0.95); and a high weighted-average overall
score alone never makes `passed` true — witnessed by a validation scoring ≥ 0.9 overall
that still fails. -/
theorem c2_passed_iff_every_bar :
    (∀ (specialist : String) (r : Recommendation) (ra : RecommendationAnalysis)
        (task : Task),
      (validateSpecialistRecommendation specialist r ra task).passed = true ↔
        ((validateSpecialistRecommendation specialist r ra task).checks.expertiseAlignment.score ≥ 0.7 ∧
         (validateSpecialistRecommendation specialist r ra task).checks.recommendationQuality.score ≥ 0.8 ∧
         (validateSpecialistRecommendation specialist r ra task).checks.implementationViability.score ≥ 0.8 ∧
         (validateSpecialistRecommendation specialist r ra task).checks.riskAssessment.riskLevel ≠ ("high") ∧
         (validateSpecialistRecommendation specialist r ra task).checks.consistencyCheck.score ≥ 0.9 ∧
         (validateSpecialistRecommendation specialist r ra task).checks.securityCheck.score ≥ 0.95)) ∧
    ((validateSpecialistRecommendation ("integration-generalist")
        Scenarios.qaScenarioRecommendation Scenarios.qaScenarioAnalysis
        Scenarios.qaScenarioTask).score ≥ 0.9 ∧
     (validateSpecialistRecommendation ("integration-generalist")
        Scenarios.qaScenarioRecommendation Scenarios.qaScenarioAnalysis
        Scenarios.qaScenarioTask).passed = false) := by
  refine ⟨?_, by rw [qaScenario_validate]; norm_num, by rw [qaScenario_validate]⟩
  intro specialist r ra task
  simp only [validateSpecialistRecommendation, allChecksPassed, checkExpertiseAlignment,
    assessRecommendationQuality, checkImplementationViability, assessRisks,
    checkConsistency, checkSecurityImplications, Bool.and_eq_true, decide_eq_true_eq,
    bne_iff_ne, ne_eq, ge_iff_le]
  tauto

end QualityAssurance

namespace ErrorRecoverySystem

/-- C3: `autoEscalateTier` advances exactly one step along the fixed chain
DIRECT → TIER_1 → TIER_2 → TIER_3 → EXTERNAL, and from EXTERNAL it always returns
`canEscalate: false` with no escalation strategy. -/
theorem c3_escalation_matrix_steps (failure : FailureInfo) :
    ((autoEscalateTier Tier.DIRECT failure).canEscalate = true ∧
      (autoEscalateTier Tier.DIRECT failure).escalation.map EscalationStrategy.fromTier =
        some Tier.DIRECT ∧
      (autoEscalateTier Tier.DIRECT failure).escalation.map EscalationStrategy.toTier =
        some Tier.TIER_1) ∧
    ((autoEscalateTier Tier.TIER_1 failure).canEscalate = true ∧
      (autoEscalateTier Tier.TIER_1 failure).escalation.map EscalationStrategy.fromTier =
        some Tier.TIER_1 ∧
      (autoEscalateTier Tier.TIER_1 failure).escalation.map EscalationStrategy.toTier =
        some Tier.TIER_2) ∧
    ((autoEscalateTier Tier.TIER_2 failure).canEscalate = true ∧
      (autoEscalateTier Tier.TIER_2 failure).escalation.map EscalationStrategy.fromTier =
        some Tier.TIER_2 ∧
      (autoEscalateTier Tier.TIER_2 failure).escalation.map EscalationStrategy.toTier =
        some Tier.TIER_3) ∧
    ((autoEscalateTier Tier.TIER_3 failure).canEscalate = true ∧
      (autoEscalateTier Tier.TIER_3 failure).escalation.map EscalationStrategy.fromTier =
        some Tier.TIER_3 ∧
      (autoEscalateTier Tier.TIER_3 failure).escalation.map EscalationStrategy.toTier =
        some Tier.EXTERNAL) ∧
    ((autoEscalateTier Tier.EXTERNAL failure).canEscalate = false ∧
      (autoEscalateTier Tier.EXTERNAL failure).escalation = none) := by
  exact ⟨⟨rfl, rfl, rfl⟩, ⟨rfl, rfl, rfl⟩, ⟨rfl, rfl, rfl⟩, ⟨rfl, rfl, rfl⟩, rfl, rfl⟩

end ErrorRecoverySystem

namespace SubAgentOrchestrator

/-- C4 evidence: the consultation object never carries a routing tier, so the escalation
computed by `handleQualityFailure` always starts from `TIER_1` and always succeeds with
target `TIER_2` — the `canEscalate:false` terminal branch of the matrix is unreachable
from the quality-failure path, and no depth-4 bound on the `processTask` recursion
exists. -/
theorem c4_escalation_never_reaches_terminal :
    (∀ c : Consultation, handleQualityFailureFromTier c = Tier.TIER_1) ∧
    (∀ (task : Task) (routing : TaskRouter.RoutingDecision),
      (executeSpecialistConsultation task routing).routing = none) ∧
    (∀ (c : Consultation) (q : QualityAssurance.QualityValidation),
      (handleQualityFailureEscalation c q).canEscalate = true ∧
      (handleQualityFailureEscalation c q).escalation.map
        ErrorRecoverySystem.EscalationStrategy.toTier = some Tier.TIER_2) := by
  have hTier : ∀ c : Consultation, handleQualityFailureFromTier c = Tier.TIER_1 := by
    intro c
    cases h : c.routing <;>
      simp [handleQualityFailureFromTier, routingDecisionTierProp, h]
  refine ⟨hTier, fun _ _ => rfl, ?_⟩
  intro c q
  unfold handleQualityFailureEscalation
  rw [hTier c]
  exact ⟨rfl, rfl⟩

/-- C8 counterexample: a consultation whose quality validation fails (only the consistency
bar is missed) but whose `escalationNeeded` is false is nevertheless cached and stored as
a success pattern by the `processTask` pipeline. -/
theorem c8_counterexample_failed_gate_cached :
    (QualityAssurance.validateSpecialistRecommendation ("integration-generalist")
      Scenarios.qaScenarioRecommendation Scenarios.qaScenarioAnalysis
      Scenarios.qaScenarioTask).passed = false ∧
    (processTaskQualityFlow (QualityAssurance.validateSpecialistRecommendation
      ("integration-generalist") Scenarios.qaScenarioRecommendation
      Scenarios.qaScenarioAnalysis Scenarios.qaScenarioTask)).cachesConsultation = true ∧
    (processTaskQualityFlow (QualityAssurance.validateSpecialistRecommendation
      ("integration-generalist") Scenarios.qaScenarioRecommendation
      Scenarios.qaScenarioAnalysis Scenarios.qaScenarioTask)).storesSuccessPattern =
      true := by
  refine ⟨?_, ?_, ?_⟩ <;> rw [QualityAssurance.qaScenario_validate] <;> rfl

/-- C8 as amended: `processTask` escalates exactly when the validation failed **and**
requires escalation; in every other case — including a failed validation whose
`escalationNeeded` is false — the consultation is cached and stored as a success
pattern. -/
theorem c8_cache_condition (q : QualityAssurance.QualityValidation) :
    ((processTaskQualityFlow q).escalates = (!q.passed && q.escalationNeeded)) ∧
    ((processTaskQualityFlow q).cachesConsultation = (q.passed || !q.escalationNeeded)) ∧
    ((processTaskQualityFlow q).storesSuccessPattern = (q.passed || !q.escalationNeeded)) := by
  unfold processTaskQualityFlow
  cases hp : q.passed <;> cases he : q.escalationNeeded <;> simp [hp, he]

/-- C9: `processFeedback` fails fast with a not-found error exactly for task ids with no
recorded performance metrics; for a known id it acknowledges with
`systemUpdated = (satisfaction < 0.6)`, and the dissatisfaction-learning path runs in
exactly that case. -/
theorem c9_process_feedback (performanceMetrics : List (String × TaskMetrics))
    (taskId : String) (feedback : Feedback) :
    ((performanceMetrics.find? (fun p => p.fst == taskId)) = none →
      processFeedback performanceMetrics taskId feedback =
        (Except.error (("Task ") ++ taskId ++ (" not found")), false)) ∧
    (∀ m, (performanceMetrics.find? (fun p => p.fst == taskId)) = some m →
      processFeedback performanceMetrics taskId feedback =
        (Except.ok
          { taskId := taskId
            feedbackProcessed := true
            systemUpdated := decide (feedback.satisfaction < 0.6) },
         decide (feedback.satisfaction < 0.6))) := by
  constructor
  · intro h
    unfold processFeedback
    rw [h]
  · intro m h
    unfold processFeedback
    rw [h]

/-- Witness for `c9_process_feedback`: an unknown id fails fast, and a known id with
satisfaction 0.5 acknowledges with `systemUpdated = true` and runs the learning path. -/
theorem c9_witness :
    processFeedback [] ("t1") { satisfaction := 0.5 } =
      (Except.error (("Task ") ++ ("t1") ++ (" not found")), false) ∧
    processFeedback [(("t1"), ({} : TaskMetrics))] ("t1") { satisfaction := 0.5 } =
      (Except.ok
        { taskId := ("t1")
          feedbackProcessed := true
          systemUpdated := decide ((0.5 : ℚ) < 0.6) },
       decide ((0.5 : ℚ) < 0.6)) :=
  ⟨(c9_process_feedback [] ("t1") { satisfaction := 0.5 }).1 rfl,
   (c9_process_feedback [(("t1"), ({} : TaskMetrics))] ("t1")
      { satisfaction := 0.5 }).2 (("t1"), ({} : TaskMetrics)) rfl⟩

end SubAgentOrchestrator

namespace TaskRouter

open TaskComplexityAnalyzer in
/-- Value of the complexity analysis on the spec §8 scenario task: scope 10 (enterprise),
technical 4 (complex technologies), domain 1, risk 1, overall 4.6 — tier `TIER_1`. -/
lemma enterprise_analyze :
    analyzeTask Scenarios.enterpriseScenarioTask =
      { overallScore := 4.6
        tier := Tier.TIER_1
        breakdown := { scope := 10, technical := 4, domain := 1, risk := 1 }
        confidence := 0.5
        recommendations := [("Consider breaking down into smaller tasks")] } := by
  have hs : analyzeScopeComplexity Scenarios.enterpriseScenarioTask = 10 := by decide
  have ht : analyzeTechnicalComplexity Scenarios.enterpriseScenarioTask = 4 := by decide
  have hd : analyzeDomainComplexity Scenarios.enterpriseScenarioTask = 1 := by decide
  have hr : analyzeRiskLevel Scenarios.enterpriseScenarioTask = 1 := by decide
  have hc : (([10, 4, 1, 1] : List ℕ).countP (fun s => decide (s > 1))) = 2 := by decide
  unfold analyzeTask
  rw [hs, ht, hd, hr]
  norm_num [calculateOverallComplexity, calculateConfidence, generateRecommendations,
    hc, min_def, ComplexityAnalysis.mk.injEq]
  decide

/-- C7 counterexample: the scenario task
`{complexity:9, scope:"enterprise", technologies:["distributed-systems","microservices"]}`
does **not** route to `TIER_3`, and its quality checklist does not have length 8. -/
theorem c7_counterexample_not_tier3 :
    (route Scenarios.enterpriseScenarioTask).complexity.tier ≠ Tier.TIER_3 ∧
    (route Scenarios.enterpriseScenarioTask).qualityChecks.length ≠ 8 := by
  constructor
  · simp only [route]
    rw [enterprise_analyze]
    decide
  · simp only [route]
    rw [enterprise_analyze]
    decide

/-- C7 as amended: the scenario task scores 10/4/1/1, overall 4.6, hence tier `TIER_1`
with the 3-item checklist; the domain is inferred as "integration" (from the substring
"service" of "microservices"), whose sole tier-1 candidate "integration-generalist" is
selected. -/
theorem c7_routing_actual :
    (route Scenarios.enterpriseScenarioTask).complexity.tier = Tier.TIER_1 ∧
    (route Scenarios.enterpriseScenarioTask).complexity.overallScore = 4.6 ∧
    (route Scenarios.enterpriseScenarioTask).qualityChecks =
      [("syntax-check"), ("unit-tests"), ("code-review")] ∧
    identifyDomain Scenarios.enterpriseScenarioTask = ("integration") ∧
    (route Scenarios.enterpriseScenarioTask).specialist =
      some ("integration-generalist") := by
  refine ⟨?_, ?_, ?_, by decide, ?_⟩ <;> simp only [route] <;> rw [enterprise_analyze] <;>
    decide

end TaskRouter

namespace ContextManager

/-- Permuted string lists have the same JS sort. -/
lemma jsSortStrings_perm {l1 l2 : List String} (h : l1.Perm l2) :
    jsSortStrings l1 = jsSortStrings l2 := by
  unfold jsSortStrings
  exact List.eq_of_perm_of_sorted
    ((List.perm_insertionSort _ l1).trans (h.trans (List.perm_insertionSort _ l2).symm))
    (List.sorted_insertionSort _ l1) (List.sorted_insertionSort _ l2)

/-- Equivalent tasks (same domain, permuted technologies, same even complexity bucket,
permuted pattern tags) have the same fingerprint. -/
lemma generateTaskFingerprint_congr (t1 t2 : Task) (hdom : t1.domain = t2.domain)
    (htech : optPerm t1.technologies t2.technologies)
    (hbucket : bucketComplexity t1.complexity = bucketComplexity t2.complexity)
    (hpat : optPerm t1.patterns t2.patterns) :
    generateTaskFingerprint t1 = generateTaskFingerprint t2 := by
  have htech' : t1.technologies.map jsSortStrings = t2.technologies.map jsSortStrings := by
    cases h1 : t1.technologies with
    | none =>
      cases h2 : t2.technologies with
      | none => rfl
      | some l2 => rw [h1, h2] at htech; exact False.elim htech
    | some l1 =>
      cases h2 : t2.technologies with
      | none => rw [h1, h2] at htech; exact False.elim htech
      | some l2 =>
        rw [h1, h2] at htech
        show some (jsSortStrings l1) = some (jsSortStrings l2)
        rw [jsSortStrings_perm (htech : l1.Perm l2)]
  have hpat' : t1.patterns.map jsSortStrings = t2.patterns.map jsSortStrings := by
    cases h1 : t1.patterns with
    | none =>
      cases h2 : t2.patterns with
      | none => rfl
      | some l2 => rw [h1, h2] at hpat; exact False.elim hpat
    | some l1 =>
      cases h2 : t2.patterns with
      | none => rw [h1, h2] at hpat; exact False.elim hpat
      | some l2 =>
        rw [h1, h2] at hpat
        show some (jsSortStrings l1) = some (jsSortStrings l2)
        rw [jsSortStrings_perm (hpat : l1.Perm l2)]
  unfold generateTaskFingerprint
  rw [hdom, hbucket, htech', hpat']

/-- Equivalent tasks produce the same cache key for the same specialist. -/
lemma generateCacheKey_congr (specialist : String) (t1 t2 : Task)
    (hdom : t1.domain = t2.domain) (htech : optPerm t1.technologies t2.technologies)
    (hbucket : bucketComplexity t1.complexity = bucketComplexity t2.complexity)
    (hpat : optPerm t1.patterns t2.patterns) :
    generateCacheKey specialist t1 = generateCacheKey specialist t2 := by
  unfold generateCacheKey
  rw [generateTaskFingerprint_congr t1 t2 hdom htech hbucket hpat]

/-- After `Map.set`, `find?` by the same key returns the new pair (replace branch). -/
lemma find_map_set (m : SpecialistCache) (k : String) (v : CacheEntry)
    (h : m.any (fun p => p.fst == k) = true) :
    (m.map (fun p => if p.fst == k then (k, v) else p)).find? (fun p => p.fst == k) =
      some (k, v) := by
  induction m with
  | nil => simp at h
  | cons q rest ih =>
    simp only [List.any_cons, Bool.or_eq_true] at h
    cases hq : (q.fst == k) with
    | true =>
      simp only [List.map_cons, hq, if_true]
      rw [List.find?_cons_of_pos]
      simp
    | false =>
      simp only [List.map_cons, hq, if_false]
      rw [List.find?_cons_of_neg _ (by simp [hq])]
      exact ih (h.resolve_left (by simp [hq]))

/-- After `Map.set`, `find?` by the same key returns the new pair (append branch). -/
lemma find_append_new (m : SpecialistCache) (k : String) (v : CacheEntry)
    (h : m.any (fun p => p.fst == k) = false) :
    (m ++ [(k, v)]).find? (fun p => p.fst == k) = some (k, v) := by
  induction m with
  | nil => simp
  | cons q rest ih =>
    simp only [List.any_cons, Bool.or_eq_false_iff] at h
    rw [List.cons_append, List.find?_cons_of_neg _ (by simp [h.1])]
    exact ih h.2

/-- JS `Map` round trip: `get` after `set` with the same key. -/
lemma cacheGet_cacheSet (m : SpecialistCache) (k : String) (v : CacheEntry) :
    cacheGet (cacheSet m k v) k = some v := by
  unfold cacheGet cacheSet
  cases h : m.any (fun p => p.fst == k) with
  | true => rw [if_pos rfl, find_map_set m k v h]; rfl
  | false => rw [if_neg (by simp), find_append_new m k v h]; rfl

/-- JS `Map`: `get` after `delete` with the same key misses. -/
lemma cacheGet_cacheDelete (m : SpecialistCache) (k : String) :
    cacheGet (cacheDelete m k) k = none := by
  unfold cacheGet cacheDelete
  rw [List.find?_eq_none.mpr]
  · rfl
  · intro x hx
    simp only [List.mem_filter, Bool.not_eq_true', beq_eq_false_iff_ne, ne_eq] at hx
    simp [hx.2]

/-- Retrieval on a present, unexpired key is a hit that leaves the cache unchanged. -/
lemma retrieveSpecialistCache_hit (now1 : ℚ) (cache : SpecialistCache) (task2 : Task)
    (specialist : String) (entry : CacheEntry)
    (hget : cacheGet cache (generateCacheKey specialist task2) = some entry)
    (hlive : isCacheExpired now1 entry = false) :
    retrieveSpecialistCache now1 cache task2 specialist = (some entry, cache) := by
  simp only [retrieveSpecialistCache, hget, hlive, Bool.false_eq_true, if_false]

/-- Retrieval on a present but expired key misses and evicts. -/
lemma retrieveSpecialistCache_expired (now1 : ℚ) (cache : SpecialistCache) (task2 : Task)
    (specialist : String) (entry : CacheEntry)
    (hget : cacheGet cache (generateCacheKey specialist task2) = some entry)
    (hdead : isCacheExpired now1 entry = true) :
    retrieveSpecialistCache now1 cache task2 specialist =
      (none, cacheDelete cache (generateCacheKey specialist task2)) := by
  simp only [retrieveSpecialistCache, hget, hdead, if_true]

/-- C5 as amended: after `cacheSpecialistConsultation` stores a consultation at time
`now0`, the stored expiration is `now0 + baseTTL × min(c/5, 2)` where a complexity `c` of
`0` is replaced by `5` (the JS `|| 5` default); `retrieveSpecialistCache` with the same
specialist and any equivalent task (same domain, technologies in any order, complexity in
the same even bucket, same pattern tags in any order) returns the stored entry while the
expiration has not passed; once `now1` is strictly past it, retrieval returns `null` and
evicts the entry from the cache. -/
theorem c5_cache_roundtrip (cm : CMConfig) (now0 now1 : ℚ) (cache : SpecialistCache)
    (consultation : CachedConsultation) (task2 : Task)
    (hdom : consultation.task.domain = task2.domain)
    (htech : optPerm consultation.task.technologies task2.technologies)
    (hbucket : bucketComplexity consultation.task.complexity = bucketComplexity task2.complexity)
    (hpat : optPerm consultation.task.patterns task2.patterns) :
    ((cacheSpecialistConsultation cm now0 cache consultation).fst.expirationTime =
      now0 + cm.baseExpirationMs *
        min ((if consultation.task.complexity == 0 then (5 : ℚ)
              else consultation.task.complexity) / 5) 2) ∧
    (now1 ≤ (cacheSpecialistConsultation cm now0 cache consultation).fst.expirationTime →
      retrieveSpecialistCache now1
          (cacheSpecialistConsultation cm now0 cache consultation).snd task2
          consultation.specialist =
        (some (cacheSpecialistConsultation cm now0 cache consultation).fst,
         (cacheSpecialistConsultation cm now0 cache consultation).snd)) ∧
    (now1 > (cacheSpecialistConsultation cm now0 cache consultation).fst.expirationTime →
      (retrieveSpecialistCache now1
          (cacheSpecialistConsultation cm now0 cache consultation).snd task2
          consultation.specialist).fst = none ∧
      cacheGet (retrieveSpecialistCache now1
          (cacheSpecialistConsultation cm now0 cache consultation).snd task2
          consultation.specialist).snd
        (generateCacheKey consultation.specialist task2) = none) := by
  have hkey : generateCacheKey consultation.specialist task2 =
      generateCacheKey consultation.specialist consultation.task :=
    (generateCacheKey_congr consultation.specialist consultation.task task2 hdom htech
      hbucket hpat).symm
  have hstored : (cacheSpecialistConsultation cm now0 cache consultation).snd =
      cacheSet cache (generateCacheKey consultation.specialist consultation.task)
        (cacheSpecialistConsultation cm now0 cache consultation).fst := rfl
  have hget : cacheGet (cacheSpecialistConsultation cm now0 cache consultation).snd
      (generateCacheKey consultation.specialist task2) =
      some (cacheSpecialistConsultation cm now0 cache consultation).fst := by
    rw [hkey, hstored]
    exact cacheGet_cacheSet _ _ _
  refine ⟨rfl, ?_, ?_⟩
  · intro hlive
    exact retrieveSpecialistCache_hit _ _ _ _ _ hget
      (by simp only [isCacheExpired, decide_eq_false_iff_not]; exact not_lt.mpr hlive)
  · intro hpast
    have h := retrieveSpecialistCache_expired _ _ _ _ _ hget
      (by simp only [isCacheExpired, decide_eq_true_eq]; exact hpast)
    rw [h]
    exact ⟨rfl, cacheGet_cacheDelete _ _⟩

/-- Witness for `c5_cache_roundtrip`: a consultation for the task
`{domain: "integration", technologies: ["rest","graphql"], complexity: 4}` stored at time
0 with base TTL 10 is retrieved at time 5 by the equivalent task with the technologies
reordered and complexity 5 (same even bucket). -/
theorem c5_cache_roundtrip_witness :
    retrieveSpecialistCache 5
        (cacheSpecialistConsultation { baseExpirationMs := 10 } 0 []
          { specialist := ("integration-generalist")
            task := { domain := some ("integration")
                      technologies := some [("rest"), ("graphql")]
                      complexity := 4 }
            recommendation := {} }).snd
        { domain := some ("integration")
          technologies := some [("graphql"), ("rest")]
          complexity := 5 }
        ("integration-generalist") =
      (some (cacheSpecialistConsultation { baseExpirationMs := 10 } 0 []
          { specialist := ("integration-generalist")
            task := { domain := some ("integration")
                      technologies := some [("rest"), ("graphql")]
                      complexity := 4 }
            recommendation := {} }).fst,
       (cacheSpecialistConsultation { baseExpirationMs := 10 } 0 []
          { specialist := ("integration-generalist")
            task := { domain := some ("integration")
                      technologies := some [("rest"), ("graphql")]
                      complexity := 4 }
            recommendation := {} }).snd) := by
  refine (c5_cache_roundtrip { baseExpirationMs := 10 } 0 5 []
    { specialist := ("integration-generalist")
      task := { domain := some ("integration")
                technologies := some [("rest"), ("graphql")]
                complexity := 4 }
      recommendation := {} }
    { domain := some ("integration")
      technologies := some [("graphql"), ("rest")]
      complexity := 5 }
    rfl
    (by exact (by decide : ([("rest"), ("graphql")] : List String).Perm
      [("graphql"), ("rest")]))
    (by norm_num [bucketComplexity]) (by exact trivial)).2.1 ?_
  show (5 : ℚ) ≤ (0 : ℚ) + 10 * min ((if ((4 : ℚ) == 0) = true then (5 : ℚ) else 4) / 5) 2
  norm_num [min_def, beq_iff_eq]

/-- C5 counterexample: for a stored task whose `complexity` is `0`, the claimed TTL
`baseTTL × min(complexity/5, 2)` is `0`, so by the claim a retrieval at time 5 (with base
TTL 10, stored at time 0) should miss — but the code replaces a falsy complexity by 5
(`complexity || 5`), giving TTL 10, and the retrieval still hits. -/
theorem c5_counterexample_zero_complexity_ttl :
    ((retrieveSpecialistCache 5
        (cacheSpecialistConsultation { baseExpirationMs := 10 } 0 []
          { specialist := ("s"), task := { complexity := 0 }, recommendation := {} }).snd
        ({ complexity := 0 } : Task) ("s")).fst).isSome = true ∧
    (5 : ℚ) > 0 + 10 * min (((0 : ℚ)) / 5) 2 := by
  constructor
  · have hstored : (cacheSpecialistConsultation { baseExpirationMs := 10 } 0 []
        { specialist := ("s"), task := { complexity := 0 }, recommendation := {} }).snd =
      cacheSet [] (generateCacheKey ("s") ({ complexity := 0 } : Task))
        (cacheSpecialistConsultation { baseExpirationMs := 10 } 0 []
          { specialist := ("s"), task := { complexity := 0 },
            recommendation := {} }).fst := rfl
    have hexp : (cacheSpecialistConsultation { baseExpirationMs := 10 } 0 []
        { specialist := ("s"), task := { complexity := 0 },
          recommendation := {} }).fst.expirationTime = 10 := by
      show calculateExpiration { baseExpirationMs := 10 } 0
        { specialist := ("s"), task := { complexity := 0 }, recommendation := {} } = 10
      norm_num [calculateExpiration, min_def, beq_iff_eq]
    have h := retrieveSpecialistCache_hit 5
      (cacheSpecialistConsultation { baseExpirationMs := 10 } 0 []
        { specialist := ("s"), task := { complexity := 0 }, recommendation := {} }).snd
      ({ complexity := 0 } : Task) ("s")
      (cacheSpecialistConsultation { baseExpirationMs := 10 } 0 []
        { specialist := ("s"), task := { complexity := 0 }, recommendation := {} }).fst
      (by rw [hstored]; exact cacheGet_cacheSet _ _ _)
      (by simp only [isCacheExpired, hexp, decide_eq_false_iff_not]; norm_num)
    rw [h]
    rfl
  · norm_num [min_def]

/-- The incremental folding of outcomes into the running success-rate average of a pattern. -/
lemma updatePatternUsage_fold (outcomes : List Outcome) : ∀ (u : ℕ), 0 < u → ∀ (num : ℚ),
    (outcomes.foldl updatePatternUsage { usageCount := u, successRate := num / (u : ℚ) }) =
      { usageCount := u + outcomes.length,
        successRate := (num + (countSuccessful outcomes : ℚ))
          / (((u + outcomes.length : ℕ)) : ℚ) } := by
  induction outcomes with
  | nil =>
    intro u hu num
    simp [countSuccessful]
  | cons o rest ih =>
    intro u hu num
    have huq : ((u : ℚ)) ≠ 0 := Nat.cast_ne_zero.mpr (by omega)
    have hstep : updatePatternUsage { usageCount := u, successRate := num / (u : ℚ) } o =
        { usageCount := u + 1
          successRate := (num + (if o.successful then (1 : ℚ) else 0))
            / (((u + 1 : ℕ)) : ℚ) } := by
      unfold updatePatternUsage
      simp only [Nat.add_sub_cancel, Pattern.mk.injEq, true_and]
      rw [div_mul_cancel₀ _ huq]
    rw [List.foldl_cons, hstep, ih (u + 1) (by omega) (num + (if o.successful then 1 else 0))]
    have hcount : (countSuccessful (o :: rest) : ℚ) =
        (if o.successful then (1 : ℚ) else 0) + (countSuccessful rest : ℚ) := by
      simp only [countSuccessful, List.countP_cons]
      cases ho : o.successful
      · norm_num [ho]
      · norm_num [ho]
        ring
    simp only [Pattern.mk.injEq, List.length_cons]
    constructor
    · omega
    · rw [hcount]
      have hlen : ((u + 1 + rest.length : ℕ) : ℚ) = ((u + (rest.length + 1) : ℕ) : ℚ) := by
        push_cast
        ring
      rw [hlen]
      ring

/-- C6: a pattern stored by `storeSuccessPattern` (for a successful outcome) starts at
`usageCount 1`, `successRate 1.0`; after `n` subsequent `updatePatternUsage` calls of
which `k` report success, `successRate = (1+k)/(1+n)` — in `[0,1]`, dependent only on the
number of successes — while intermediate values do depend on the order (1 vs 1/2 after one
step for success-first vs failure-first, both ending at 2/3). -/
theorem c6_success_rate_running_average (outcome0 : Outcome)
    (h : outcome0.successful = true) (outcomes : List Outcome) :
    storeSuccessPattern outcome0 = some { usageCount := 1, successRate := 1.0 } ∧
    (outcomes.foldl updatePatternUsage
      { usageCount := 1, successRate := 1.0 }).usageCount = 1 + outcomes.length ∧
    (outcomes.foldl updatePatternUsage
      { usageCount := 1, successRate := 1.0 }).successRate =
      (1 + (countSuccessful outcomes : ℚ)) / (1 + (outcomes.length : ℚ)) ∧
    0 ≤ (outcomes.foldl updatePatternUsage
      { usageCount := 1, successRate := 1.0 }).successRate ∧
    (outcomes.foldl updatePatternUsage
      { usageCount := 1, successRate := 1.0 }).successRate ≤ 1 ∧
    (([{ successful := true }, { successful := false }] : List Outcome).foldl
        updatePatternUsage { usageCount := 1, successRate := 1.0 }).successRate =
      (([{ successful := false }, { successful := true }] : List Outcome).foldl
        updatePatternUsage { usageCount := 1, successRate := 1.0 }).successRate ∧
    (([{ successful := true }] : List Outcome).foldl updatePatternUsage
        { usageCount := 1, successRate := 1.0 }).successRate ≠
      (([{ successful := false }] : List Outcome).foldl updatePatternUsage
        { usageCount := 1, successRate := 1.0 }).successRate := by
  have h10 : ({ usageCount := 1, successRate := 1.0 } : Pattern) =
      { usageCount := 1, successRate := (1 : ℚ) / ((1 : ℕ) : ℚ) } := by
    norm_num
  have hfold := updatePatternUsage_fold outcomes 1 (by omega) 1
  refine ⟨?_, ?_, ?_, ?_, ?_, ?_, ?_⟩
  · simp [storeSuccessPattern, h]
  · rw [h10, hfold]
  · rw [h10, hfold]
    push_cast
    ring_nf
  · rw [h10, hfold]
    positivity
  · rw [h10, hfold]
    rw [div_le_one (by positivity)]
    have hle : countSuccessful outcomes ≤ outcomes.length := List.countP_le_length _
    have hleq : ((countSuccessful outcomes : ℕ) : ℚ) ≤ ((outcomes.length : ℕ) : ℚ) :=
      Nat.cast_le.mpr hle
    push_cast at hleq ⊢
    linarith
  · norm_num [List.foldl, updatePatternUsage]
  · norm_num [List.foldl, updatePatternUsage]

/-- Witness for `c6_success_rate_running_average`: after storing with a successful outcome
and folding in one failed reuse, the running average is `(1+0)/(1+1)`. -/
theorem c6_witness :
    (([{ successful := false }] : List Outcome).foldl updatePatternUsage
      { usageCount := 1, successRate := 1.0 }).successRate =
      (1 + (countSuccessful [{ successful := false }] : ℚ))
        / (1 + (([({ successful := false } : Outcome)]).length : ℚ)) :=
  (c6_success_rate_running_average { successful := true } rfl
    [{ successful := false }]).2.2.1

end ContextManager

end LemlistMCP
